import Mathlib

/-!
Shallow embedding of the vkd3d-shader front end
(`src/libs/vkd3d-shader/vkd3d_shader_main.c`): the diagnostics string
buffer, the message context, the shader-scan context with its
control-flow verifier and resource scanner, and the scan/compile pass
orchestration.  C structs become Lean structures; heap allocation
success is threaded explicitly (a `Bool` flag for the diagnostics
buffer reallocations, a `List Bool` oracle for the growable-table
reserve calls); C undefined behaviour (an unchecked null-pointer
dereference) is modelled by `Option` results with `none` marking the
crash.  Enumerations declared in headers outside this file
(structure-type / source-type / target-type tags, register files,
descriptor kinds, flag bit values) are modelled as inductive types or
small numeric constants; only their distinctness is ever used.
-/

def NUL : Char := '\x00'

/-- Condensed form of `struct vkd3d_string_buffer`: `data` models the
`buffer_size`-byte allocation (so `buffer_size = data.length`) and
`content_size` the used length. -/
structure VkdStringBuffer where
  data : List Char
  content_size : Nat
deriving DecidableEq

/-- Overwrite `l` starting at position `pos` with `s`, keeping the rest: the
effect of a C write of `s.length` bytes through the pointer `l + pos`. -/
def sbWriteAt (l : List Char) (pos : Nat) (s : List Char) : List Char :=
  l.take pos ++ s ++ l.drop (pos + s.length)

/-- The accumulated text of a string buffer: its first `content_size` bytes. -/
def sbContents (b : VkdStringBuffer) : List Char :=
  b.data.take b.content_size

/-- The buffer invariant: the content fits strictly inside the allocation and
is followed by a terminating NUL byte. -/
def nullTerminated (b : VkdStringBuffer) : Prop :=
  b.content_size < b.data.length ∧ b.data.get? b.content_size = some NUL

instance (b : VkdStringBuffer) : Decidable (nullTerminated b) :=
  inferInstanceAs (Decidable (_ ∧ _))

/-- `vkd3d_string_buffer_clear` (main.c:26-30): `buffer[0] = NUL`,
`content_size = 0`. -/
def vkd3d_string_buffer_clear (b : VkdStringBuffer) : VkdStringBuffer :=
  ⟨sbWriteAt b.data 0 [NUL], 0⟩

/-- `vkd3d_string_buffer_init` (main.c:32-43): allocate 32 bytes (fresh,
uninitialized memory is modelled as NUL-filled; only the byte written by
`clear` is ever read) and clear.  `allocOk` models the malloc outcome,
`none` the `false` return. -/
def vkd3d_string_buffer_init (allocOk : Bool) : Option VkdStringBuffer :=
  if allocOk then some (vkd3d_string_buffer_clear ⟨List.replicate 32 NUL, 0⟩) else none

/-- The size-doubling loop of `vkd3d_string_buffer_resize` (main.c:52-56):
starting from `buffer_size * 2`, keep doubling while
`rc > 0 && rc >= new_buffer_size - content_size`.  Written with explicit
fuel; `rc + content + 2` iterations always suffice once the start size is
positive (shown in `growSizeF_post`). -/
def growSizeF : Nat → Nat → Nat → Nat → Nat
  | 0, newSize, _, _ => newSize
  | fuel + 1, newSize, content, rc =>
    if 0 < rc ∧ newSize - content ≤ rc then growSizeF fuel (newSize * 2) content rc
    else newSize

/-- The new buffer size chosen by `vkd3d_string_buffer_resize` (main.c:50-56). -/
def vkd3d_string_buffer_resize_size (buffer_size content_size rc : Nat) : Nat :=
  growSizeF (rc + content_size + 2) (buffer_size * 2) content_size rc

/-- `vkd3d_realloc` on success: the old bytes are preserved, the grown tail is
uninitialized (modelled as NUL-filled; it is always overwritten before
being read). -/
def reallocData (l : List Char) (newSize : Nat) : List Char :=
  l.take newSize ++ List.replicate (newSize - l.length) NUL

/-- `vkd3d_string_buffer_vprintf` (main.c:68-89).  `vsnprintf` into the `rem`
remaining bytes writes the whole formatted text `s` plus its terminator
when `rc < rem`, and otherwise writes the truncated prefix of `rem - 1`
bytes plus a terminator (nothing at all when `rem = 0`); on overflow the
buffer is grown via `vkd3d_string_buffer_resize` and the write retried.
`allocOk` models the outcome of the realloc inside resize; on realloc
failure resize restores the terminator at `content_size` and returns
false, making vprintf return -1 (main.c:57-61, 86-87).  The fuel bounds
the retry loop; `s.length + 2` iterations always suffice because one
successful resize already makes the pending write fit. -/
def vprintfF : Nat → VkdStringBuffer → List Char → Bool → Int × VkdStringBuffer
  | 0, b, _, _ => (-1, b)
  | fuel + 1, b, s, allocOk =>
    let rem := b.data.length - b.content_size
    if s.length < rem then
      (0, ⟨sbWriteAt b.data b.content_size (s ++ [NUL]), b.content_size + s.length⟩)
    else
      let data1 :=
        if rem = 0 then b.data
        else sbWriteAt b.data b.content_size (s.take (rem - 1) ++ [NUL])
      let newSize := vkd3d_string_buffer_resize_size b.data.length b.content_size s.length
      if allocOk then
        vprintfF fuel ⟨reallocData data1 newSize, b.content_size⟩ s allocOk
      else
        (-1, ⟨sbWriteAt data1 b.content_size [NUL], b.content_size⟩)

def vkd3d_string_buffer_vprintf (b : VkdStringBuffer) (s : List Char) (allocOk : Bool) :
    Int × VkdStringBuffer :=
  vprintfF (s.length + 2) b s allocOk

/-- `struct vkd3d_shader_message_context` (log level, source name, position
cursor, message buffer). -/
structure VkdMessageContext where
  log_level : Nat
  source_name : List Char
  line : Nat
  column : Nat
  messages : VkdStringBuffer
deriving DecidableEq

/-- `VKD3D_SHADER_LOG_ERROR`; only the relative order of the log-level
enumerators matters (NONE < ERROR < ...). -/
def VKD3D_SHADER_LOG_ERROR : Nat := 1

/-- `vkd3d_shader_message_context_init` (main.c:121-130); the 32-byte message
buffer allocation is modelled as succeeding. -/
def vkd3d_shader_message_context_init (log_level : Nat) (source_name : Option (List Char)) :
    VkdMessageContext :=
  ⟨log_level, source_name.getD "<anonymous>".toList, 0, 0,
    (vkd3d_string_buffer_init true).getD ⟨[NUL], 0⟩⟩

/-- The bytes copied out by `vkd3d_shader_message_context_copy_messages`
(main.c:143-151): `content_size + 1` bytes, i.e. the content plus its
terminator. -/
def copyBuffer (b : VkdStringBuffer) : List Char :=
  b.data.take (b.content_size + 1)

/-- `vkd3d_shader_message_context_copy_messages`; `allocOk` models the malloc
of the copy, `none` its NULL return. -/
def vkd3d_shader_message_context_copy_messages (allocOk : Bool) (ctx : VkdMessageContext) :
    Option (List Char) :=
  if allocOk then some (copyBuffer ctx.messages) else none

/-- Decimal rendering of a printf `%u` argument. -/
def fmtNat (n : Nat) : List Char := Nat.toDigits 10 n

/-- Rendering of the `%04u` error-code field: at least four digits, zero
padded. -/
def fmtE (e : Nat) : List Char :=
  List.replicate (4 - (Nat.toDigits 10 e).length) '0' ++ Nat.toDigits 10 e

/-- The position prefix printed by `vkd3d_shader_verror` (main.c:159-163):
`"%s:%u:%u: E%04u: "` with source name, line, column and error code when
`line` is nonzero, `"%s: E%04u: "` otherwise. -/
def verrorPrefix (ctx : VkdMessageContext) (error : Nat) : List Char :=
  if ctx.line ≠ 0 then
    ctx.source_name ++ ":".toList ++ fmtNat ctx.line ++ ":".toList ++ fmtNat ctx.column
      ++ ": E".toList ++ fmtE error ++ ": ".toList
  else
    ctx.source_name ++ ": E".toList ++ fmtE error ++ ": ".toList

/-- `vkd3d_shader_verror` (main.c:153-166): drop the message when the log
level filters errors out; otherwise append the position prefix, the
formatted message and a newline — three `vkd3d_string_buffer_vprintf`
calls whose formatted outputs are modelled directly.  `allocOk` models
the outcome of every buffer reallocation the appends may need (the C
code ignores the printf return values). -/
def vkd3d_shader_verror (ctx : VkdMessageContext) (error : Nat) (msg : List Char)
    (allocOk : Bool) : VkdMessageContext :=
  if ctx.log_level < VKD3D_SHADER_LOG_ERROR then ctx
  else
    {ctx with messages :=
      (vkd3d_string_buffer_vprintf
        (vkd3d_string_buffer_vprintf
          (vkd3d_string_buffer_vprintf ctx.messages (verrorPrefix ctx error) allocOk).2
          msg allocOk).2
        "\n".toList allocOk).2}

theorem sbWriteAt_length (l : List Char) (pos : Nat) (s : List Char)
    (h : pos + s.length ≤ l.length) : (sbWriteAt l pos s).length = l.length := by
  simp [sbWriteAt]
  omega

theorem sbWriteAt_take_add (l : List Char) (pos : Nat) (s : List Char) (n : Nat)
    (h : pos ≤ l.length) (hn : n ≤ s.length) :
    (sbWriteAt l pos s).take (pos + n) = l.take pos ++ s.take n := by
  have hl : (l.take pos).length = pos := by simp [h]
  rw [sbWriteAt, List.append_assoc, List.take_append_eq_append_take, hl,
    List.take_all_of_le (by omega), List.take_append_eq_append_take]
  simp [Nat.sub_eq_zero_of_le hn]

theorem sbWriteAt_get (l : List Char) (pos : Nat) (s : List Char) (i : Nat)
    (h : pos ≤ l.length) (hi : i < s.length) :
    (sbWriteAt l pos s).get? (pos + i) = s.get? i := by
  have hl : (l.take pos).length = pos := by simp [h]
  rw [sbWriteAt, List.append_assoc, List.get?_append_right (by omega), hl,
    Nat.add_sub_cancel_left, List.get?_append hi]

theorem growSizeF_post (fuel : Nat) : ∀ n c r : Nat, 0 < n → r + c + 1 ≤ fuel + n →
    n ≤ growSizeF fuel n c r ∧ (0 < r → r < growSizeF fuel n c r - c) := by
  induction fuel with
  | zero =>
    intro n c r hn hfuel
    refine ⟨Nat.le_refl n, fun hr => ?_⟩
    simp only [growSizeF]
    omega
  | succ fuel ih =>
    intro n c r hn hfuel
    by_cases hcond : 0 < r ∧ n - c ≤ r
    · have h2 : 0 < n * 2 := by omega
      have h3 : r + c + 1 ≤ fuel + n * 2 := by omega
      obtain ⟨hle, hlt⟩ := ih (n * 2) c r h2 h3
      rw [growSizeF, if_pos hcond]
      exact ⟨by omega, hlt⟩
    · rw [growSizeF, if_neg hcond]
      refine ⟨Nat.le_refl n, fun hr => ?_⟩
      omega

theorem resize_size_post (len c r : Nat) (h : 0 < len) :
    len * 2 ≤ vkd3d_string_buffer_resize_size len c r ∧
    (0 < r → r < vkd3d_string_buffer_resize_size len c r - c) :=
  growSizeF_post (r + c + 2) (len * 2) c r (by omega) (by omega)

theorem vprintfF_fits (fuel : Nat) (b : VkdStringBuffer) (s : List Char) (ok : Bool)
    (h : s.length < b.data.length - b.content_size) :
    vprintfF (fuel + 1) b s ok =
      (0, ⟨sbWriteAt b.data b.content_size (s ++ [NUL]), b.content_size + s.length⟩) := by
  simp [vprintfF, h]

theorem fits_props (b : VkdStringBuffer) (s : List Char)
    (h : s.length < b.data.length - b.content_size) :
    nullTerminated ⟨sbWriteAt b.data b.content_size (s ++ [NUL]), b.content_size + s.length⟩ ∧
    sbContents ⟨sbWriteAt b.data b.content_size (s ++ [NUL]), b.content_size + s.length⟩ =
      sbContents b ++ s := by
  have hlen : (sbWriteAt b.data b.content_size (s ++ [NUL])).length = b.data.length := by
    apply sbWriteAt_length
    simp
    omega
  refine ⟨⟨?_, ?_⟩, ?_⟩
  · show b.content_size + s.length < (sbWriteAt b.data b.content_size (s ++ [NUL])).length
    rw [hlen]
    omega
  · show (sbWriteAt b.data b.content_size (s ++ [NUL])).get? (b.content_size + s.length) = some NUL
    rw [sbWriteAt_get b.data b.content_size (s ++ [NUL]) s.length (by omega) (by simp),
      List.get?_append_right (Nat.le_refl _)]
    simp
  · show (sbWriteAt b.data b.content_size (s ++ [NUL])).take (b.content_size + s.length) = _
    rw [sbWriteAt_take_add b.data b.content_size (s ++ [NUL]) s.length (by omega) (by simp),
      List.take_append_eq_append_take]
    simp [sbContents]

theorem data1_length (b : VkdStringBuffer) (s : List Char)
    (hc : b.content_size < b.data.length)
    (hfit : ¬ s.length < b.data.length - b.content_size) :
    (sbWriteAt b.data b.content_size
        (s.take (b.data.length - b.content_size - 1) ++ [NUL])).length = b.data.length := by
  apply sbWriteAt_length
  simp
  omega

theorem data1_take (b : VkdStringBuffer) (s : List Char)
    (hc : b.content_size < b.data.length) :
    (sbWriteAt b.data b.content_size
        (s.take (b.data.length - b.content_size - 1) ++ [NUL])).take b.content_size =
      b.data.take b.content_size := by
  have := sbWriteAt_take_add b.data b.content_size
    (s.take (b.data.length - b.content_size - 1) ++ [NUL]) 0 (by omega) (by simp)
  simpa using this

theorem vprintf_true_spec (b : VkdStringBuffer) (s : List Char)
    (h : b.content_size < b.data.length) :
    (vkd3d_string_buffer_vprintf b s true).1 = 0 ∧
    nullTerminated (vkd3d_string_buffer_vprintf b s true).2 ∧
    sbContents (vkd3d_string_buffer_vprintf b s true).2 = sbContents b ++ s := by
  by_cases hfit : s.length < b.data.length - b.content_size
  · rw [vkd3d_string_buffer_vprintf,
      show s.length + 2 = (s.length + 1) + 1 from rfl, vprintfF_fits _ b s true hfit]
    exact ⟨rfl, (fits_props b s hfit).1, (fits_props b s hfit).2⟩
  · have hrem : ¬ b.data.length - b.content_size = 0 := by omega
    obtain ⟨hsz, hbig⟩ :=
      resize_size_post b.data.length b.content_size s.length (by omega)
    set newSize := vkd3d_string_buffer_resize_size b.data.length b.content_size s.length with hns
    set data1 := sbWriteAt b.data b.content_size
      (s.take (b.data.length - b.content_size - 1) ++ [NUL]) with hd1
    have hd1len : data1.length = b.data.length := data1_length b s h hfit
    set b2 : VkdStringBuffer := ⟨reallocData data1 newSize, b.content_size⟩ with hb2
    have hb2len : b2.data.length = newSize := by
      show (reallocData data1 newSize).length = newSize
      rw [reallocData]
      simp [hd1len]
      omega
    have hfit2 : s.length < b2.data.length - b2.content_size := by
      rw [hb2len]
      show s.length < newSize - b.content_size
      rcases Nat.eq_zero_or_pos s.length with hz | hp
      · omega
      · exact hbig hp
    have hstep : vkd3d_string_buffer_vprintf b s true = vprintfF (s.length + 1) b2 s true := by
      rw [vkd3d_string_buffer_vprintf, show s.length + 2 = (s.length + 1) + 1 from rfl,
        vprintfF]
      simp only [hfit, if_false, hrem, if_true, ite_false, ite_true]
    have hcont2 : sbContents b2 = sbContents b := by
      show (reallocData data1 newSize).take b.content_size = b.data.take b.content_size
      rw [reallocData, List.take_append_eq_append_take, List.take_take,
        Nat.min_eq_left (show b.content_size ≤ newSize by omega), List.length_take,
        Nat.min_eq_right (show data1.length ≤ newSize by omega),
        Nat.sub_eq_zero_of_le (show b.content_size ≤ data1.length by omega), List.take_zero,
        List.append_nil, hd1, data1_take b s h]
    rw [hstep, show s.length + 1 = s.length + 0 + 1 from rfl, vprintfF_fits _ b2 s true hfit2]
    refine ⟨rfl, (fits_props b2 s hfit2).1, ?_⟩
    rw [(fits_props b2 s hfit2).2, hcont2]

theorem vprintf_fail_spec (b : VkdStringBuffer) (s : List Char)
    (hc : b.content_size < b.data.length)
    (hfit : ¬ s.length < b.data.length - b.content_size) :
    (vkd3d_string_buffer_vprintf b s false).1 = -1 ∧
    nullTerminated (vkd3d_string_buffer_vprintf b s false).2 ∧
    sbContents (vkd3d_string_buffer_vprintf b s false).2 = sbContents b := by
  have hrem : ¬ b.data.length - b.content_size = 0 := by omega
  set data1 := sbWriteAt b.data b.content_size
    (s.take (b.data.length - b.content_size - 1) ++ [NUL]) with hd1
  have hd1len : data1.length = b.data.length := data1_length b s hc hfit
  have hstep : vkd3d_string_buffer_vprintf b s false =
      (-1, ⟨sbWriteAt data1 b.content_size [NUL], b.content_size⟩) := by
    rw [vkd3d_string_buffer_vprintf, show s.length + 2 = (s.length + 1) + 1 from rfl,
      vprintfF]
    simp only [hfit, if_false, hrem, ite_false]
    rfl
  rw [hstep]
  have hwlen : (sbWriteAt data1 b.content_size [NUL]).length = b.data.length := by
    rw [sbWriteAt_length data1 b.content_size [NUL] (by simp [hd1len]; omega), hd1len]
  refine ⟨rfl, ⟨?_, ?_⟩, ?_⟩
  · show b.content_size < (sbWriteAt data1 b.content_size [NUL]).length
    omega
  · show (sbWriteAt data1 b.content_size [NUL]).get? b.content_size = some NUL
    have := sbWriteAt_get data1 b.content_size [NUL] 0 (by omega) (by simp)
    simpa using this
  · show (sbWriteAt data1 b.content_size [NUL]).take b.content_size = b.data.take b.content_size
    have := sbWriteAt_take_add data1 b.content_size [NUL] 0 (by omega) (by simp)
    simp only [Nat.add_zero, List.take_zero, List.append_nil] at this
    rw [this, data1_take b s hc]

theorem vprintf_spec (b : VkdStringBuffer) (s : List Char) (ok : Bool)
    (h : nullTerminated b) :
    nullTerminated (vkd3d_string_buffer_vprintf b s ok).2 ∧
    ((vkd3d_string_buffer_vprintf b s ok).1 = 0 →
      sbContents (vkd3d_string_buffer_vprintf b s ok).2 = sbContents b ++ s) ∧
    ((vkd3d_string_buffer_vprintf b s ok).1 ≠ 0 →
      sbContents (vkd3d_string_buffer_vprintf b s ok).2 = sbContents b) := by
  cases ok
  · by_cases hfit : s.length < b.data.length - b.content_size
    · rw [vkd3d_string_buffer_vprintf,
        show s.length + 2 = (s.length + 1) + 1 from rfl, vprintfF_fits _ b s false hfit]
      exact ⟨(fits_props b s hfit).1, fun _ => (fits_props b s hfit).2,
        fun hne => absurd rfl hne⟩
    · obtain ⟨h1, h2, h3⟩ := vprintf_fail_spec b s h.1 hfit
      exact ⟨h2, fun h0 => absurd (h1 ▸ h0) (by decide), fun _ => h3⟩
  · obtain ⟨h1, h2, h3⟩ := vprintf_true_spec b s h.1
    exact ⟨h2, fun _ => h3, fun hne => absurd h1 hne⟩

/-- A sequence of `vkd3d_string_buffer_vprintf` appends with every
reallocation succeeding, as performed by repeated
`vkd3d_string_buffer_printf` calls. -/
def appendAll (b : VkdStringBuffer) (msgs : List (List Char)) : VkdStringBuffer :=
  msgs.foldl (fun acc s => (vkd3d_string_buffer_vprintf acc s true).2) b

theorem appendAll_spec (msgs : List (List Char)) : ∀ b : VkdStringBuffer, nullTerminated b →
    nullTerminated (appendAll b msgs) ∧
    sbContents (appendAll b msgs) = sbContents b ++ msgs.join := by
  induction msgs with
  | nil =>
    intro b hb
    simpa [appendAll] using hb
  | cons m ms ih =>
    intro b hb
    obtain ⟨h0, hnt, hcont⟩ := vprintf_true_spec b m hb.1
    have step : appendAll b (m :: ms) = appendAll (vkd3d_string_buffer_vprintf b m true).2 ms :=
      rfl
    obtain ⟨ih1, ih2⟩ := ih (vkd3d_string_buffer_vprintf b m true).2 hnt
    rw [step]
    refine ⟨ih1, ?_⟩
    rw [ih2, hcont]
    simp

/-- Claim C5: every diagnostics-buffer operation — `init`, `clear`, a
successful append, and an append whose growth fails — leaves the buffer
null-terminated at its content length within capacity, and an append
whose growth fails leaves all previously accumulated content bytes
unchanged, discarding only the failed attempt's write (a nonzero printf
return marks the failed append, and `sbContents` is the accumulated
content). -/
theorem c5_buffer_invariants :
    (∀ b, vkd3d_string_buffer_init true = some b → nullTerminated b) ∧
    (∀ b, nullTerminated b → nullTerminated (vkd3d_string_buffer_clear b)) ∧
    (∀ b s ok, nullTerminated b →
      nullTerminated (vkd3d_string_buffer_vprintf b s ok).2 ∧
      ((vkd3d_string_buffer_vprintf b s ok).1 ≠ 0 →
        sbContents (vkd3d_string_buffer_vprintf b s ok).2 = sbContents b)) := by
  refine ⟨?_, ?_, ?_⟩
  · intro b hb
    simp only [vkd3d_string_buffer_init, if_true, Option.some.injEq] at hb
    rw [← hb]
    decide
  · intro b hb
    have h1 := hb.1
    constructor
    · show (0 : Nat) < (sbWriteAt b.data 0 [NUL]).length
      rw [sbWriteAt_length b.data 0 [NUL] (by simp; omega)]
      omega
    · show (sbWriteAt b.data 0 [NUL]).get? 0 = some NUL
      have := sbWriteAt_get b.data 0 [NUL] 0 (by omega) (by simp)
      simpa using this
  · intro b s ok hb
    exact ⟨(vprintf_spec b s ok hb).1, (vprintf_spec b s ok hb).2.2⟩

/-- Witness for C5 at a concrete two-byte buffer: the invariant holds and an
append of a long message whose growth fails (allocation flag false)
preserves the empty prior content. -/
theorem c5_buffer_invariants_witness :
    nullTerminated (⟨[NUL, NUL], 0⟩ : VkdStringBuffer) ∧
    nullTerminated (vkd3d_string_buffer_vprintf ⟨[NUL, NUL], 0⟩ "hello world".toList false).2 ∧
    sbContents (vkd3d_string_buffer_vprintf ⟨[NUL, NUL], 0⟩ "hello world".toList false).2 =
      sbContents ⟨[NUL, NUL], 0⟩ :=
  ⟨by decide,
    (c5_buffer_invariants.2.2 ⟨[NUL, NUL], 0⟩ "hello world".toList false (by decide)).1,
    (c5_buffer_invariants.2.2 ⟨[NUL, NUL], 0⟩ "hello world".toList false (by decide)).2
      (by decide)⟩

/-- Claim C6: a sequence of successful `append_formatted` calls — including
messages longer than the current capacity, which trigger growth rather
than truncation — accumulates exactly the concatenation of all appended
messages in call order, and `copy_out`
(`vkd3d_shader_message_context_copy_messages`) returns exactly that
concatenation (as the copied bytes: the concatenation plus the C string
terminator). -/
theorem c6_append_concat (msgs : List (List Char)) (b : VkdStringBuffer)
    (h : vkd3d_string_buffer_init true = some b) :
    sbContents (appendAll b msgs) = msgs.join ∧
    ∀ log_level source_name line column,
      vkd3d_shader_message_context_copy_messages true
          ⟨log_level, source_name, line, column, appendAll b msgs⟩ =
        some (msgs.join ++ [NUL]) := by
  simp only [vkd3d_string_buffer_init, if_true, Option.some.injEq] at h
  rw [← h]
  obtain ⟨hnt, hcont⟩ :=
    appendAll_spec msgs (vkd3d_string_buffer_clear ⟨List.replicate 32 NUL, 0⟩) (by decide)
  have hfirst :
      sbContents (appendAll (vkd3d_string_buffer_clear ⟨List.replicate 32 NUL, 0⟩) msgs) =
        msgs.join := by
    rw [hcont, show sbContents (vkd3d_string_buffer_clear ⟨List.replicate 32 NUL, 0⟩) = []
      from by decide, List.nil_append]
  refine ⟨hfirst, fun ll sn ln col => ?_⟩
  rw [vkd3d_shader_message_context_copy_messages, if_pos rfl]
  show some (copyBuffer (appendAll (vkd3d_string_buffer_clear ⟨List.replicate 32 NUL, 0⟩) msgs)) = _
  rw [copyBuffer, List.take_succ, ← List.get?_eq_getElem?, hnt.2]
  have hfirst2 :
      (appendAll (vkd3d_string_buffer_clear ⟨List.replicate 32 NUL, 0⟩) msgs).data.take
        (appendAll (vkd3d_string_buffer_clear ⟨List.replicate 32 NUL, 0⟩) msgs).content_size =
      msgs.join := hfirst
  rw [hfirst2]
  simp

/-- The messages of the C6 witness: a short message followed by one much
longer than the 32-byte initial capacity. -/
def c6msgs : List (List Char) :=
  ["abc".toList, "this message is far longer than the thirty-two byte initial capacity".toList]

/-- Witness for C6 at the concrete freshly initialized buffer and a message
list containing a message longer than the capacity. -/
theorem c6_append_concat_witness :
    sbContents (appendAll (vkd3d_string_buffer_clear ⟨List.replicate 32 NUL, 0⟩) c6msgs) =
      c6msgs.join ∧
    vkd3d_shader_message_context_copy_messages true
        ⟨0, [], 0, 0, appendAll (vkd3d_string_buffer_clear ⟨List.replicate 32 NUL, 0⟩) c6msgs⟩ =
      some (c6msgs.join ++ [NUL]) :=
  ⟨(c6_append_concat c6msgs (vkd3d_string_buffer_clear ⟨List.replicate 32 NUL, 0⟩) rfl).1,
    (c6_append_concat c6msgs (vkd3d_string_buffer_clear ⟨List.replicate 32 NUL, 0⟩) rfl).2
      0 [] 0 0⟩

/-- Claim C7: `record` (`vkd3d_shader_verror`) is a no-op on the whole context
when the minimum-severity filter excludes errors, and otherwise appends
exactly one line to the buffer: the position prefix `verrorPrefix`
(`source:line:column: Ecode: ` when `line` is nonzero, `source: Ecode: `
when it is zero), then the message, then a newline. -/
theorem c7_record_format (ctx : VkdMessageContext) (e : Nat) (msg : List Char) :
    (ctx.log_level < VKD3D_SHADER_LOG_ERROR → ∀ ok, vkd3d_shader_verror ctx e msg ok = ctx) ∧
    (VKD3D_SHADER_LOG_ERROR ≤ ctx.log_level → nullTerminated ctx.messages →
      sbContents (vkd3d_shader_verror ctx e msg true).messages =
        sbContents ctx.messages ++ verrorPrefix ctx e ++ msg ++ "\n".toList) := by
  constructor
  · intro hlt ok
    rw [vkd3d_shader_verror, if_pos hlt]
  · intro hge hnt
    rw [vkd3d_shader_verror, if_neg (by omega)]
    obtain ⟨p1, nt1, c1⟩ := vprintf_true_spec ctx.messages (verrorPrefix ctx e) hnt.1
    obtain ⟨p2, nt2, c2⟩ :=
      vprintf_true_spec (vkd3d_string_buffer_vprintf ctx.messages (verrorPrefix ctx e) true).2
        msg nt1.1
    obtain ⟨p3, nt3, c3⟩ :=
      vprintf_true_spec
        (vkd3d_string_buffer_vprintf
          (vkd3d_string_buffer_vprintf ctx.messages (verrorPrefix ctx e) true).2 msg true).2
        "\n".toList nt2.1
    show sbContents (vkd3d_string_buffer_vprintf _ "\n".toList true).2 = _
    rw [c3, c2, c1, List.append_assoc, List.append_assoc]

/-- Witness for C7: a filtered context (log level NONE) is left unchanged, and
an unfiltered context (log level ERROR) at line 3, column 1 gets the
formatted line appended. -/
theorem c7_record_format_witness :
    vkd3d_shader_verror ⟨0, "f".toList, 3, 1, ⟨[NUL, NUL], 0⟩⟩ 1000 "bad".toList true =
      ⟨0, "f".toList, 3, 1, ⟨[NUL, NUL], 0⟩⟩ ∧
    sbContents
        (vkd3d_shader_verror ⟨1, "f".toList, 3, 1, ⟨[NUL, NUL], 0⟩⟩ 1000 "bad".toList
          true).messages =
      sbContents (⟨[NUL, NUL], 0⟩ : VkdStringBuffer) ++
        verrorPrefix ⟨1, "f".toList, 3, 1, ⟨[NUL, NUL], 0⟩⟩ 1000 ++ "bad".toList ++
        "\n".toList :=
  ⟨(c7_record_format ⟨0, "f".toList, 3, 1, ⟨[NUL, NUL], 0⟩⟩ 1000 "bad".toList).1
      (by decide) true,
    (c7_record_format ⟨1, "f".toList, 3, 1, ⟨[NUL, NUL], 0⟩⟩ 1000 "bad".toList).2
      (by decide) (by decide)⟩

/-! Scan context and instruction model (main.c:218-224, 370-398 and the
instruction structures from vkd3d_shader_private.h that the scanner
reads: opcode handler, operand registers, declaration payloads). -/

/-- Register files (`enum vkd3d_shader_register_type`); the scanner only ever
tests a register for `VKD3DSPR_UAV`, so a few representative files are
enough. -/
inductive VkdRegType
  | VKD3DSPR_TEMP
  | VKD3DSPR_RESOURCE
  | VKD3DSPR_SAMPLER
  | VKD3DSPR_CONSTBUFFER
  | VKD3DSPR_UAV
deriving DecidableEq

/-- A shader register: its file and `idx[0].offset` (the only index the
scanner reads). -/
structure VkdReg where
  rtype : VkdRegType
  idx0 : Nat
deriving DecidableEq

/-- The instruction handlers read by the scanner (`enum
VKD3D_SHADER_INSTRUCTION_HANDLER`).  The private header declares the
atomic handlers contiguously from `VKD3DSIH_ATOMIC_AND` to
`VKD3DSIH_ATOMIC_XOR` and the immediate-atomic handlers from
`VKD3DSIH_IMM_ATOMIC_ALLOC` to `VKD3DSIH_IMM_ATOMIC_XOR`; the two range
tests in `vkd3d_shader_instruction_is_uav_read` (main.c:497-498) are
modelled as membership in the corresponding enumerated constructor sets
(`inAtomicRange`, `inImmAtomicRange`), with a few representative interior
members. -/
inductive VkdOpcode
  | VKD3DSIH_DCL_CONSTANT_BUFFER
  | VKD3DSIH_DCL_SAMPLER
  | VKD3DSIH_DCL
  | VKD3DSIH_DCL_UAV_TYPED
  | VKD3DSIH_DCL_RESOURCE_RAW
  | VKD3DSIH_DCL_UAV_RAW
  | VKD3DSIH_DCL_RESOURCE_STRUCTURED
  | VKD3DSIH_DCL_UAV_STRUCTURED
  | VKD3DSIH_IF
  | VKD3DSIH_ELSE
  | VKD3DSIH_ENDIF
  | VKD3DSIH_LOOP
  | VKD3DSIH_ENDLOOP
  | VKD3DSIH_SWITCH
  | VKD3DSIH_ENDSWITCH
  | VKD3DSIH_CASE
  | VKD3DSIH_DEFAULT
  | VKD3DSIH_BREAK
  | VKD3DSIH_BREAKP
  | VKD3DSIH_CONTINUE
  | VKD3DSIH_CONTINUEP
  | VKD3DSIH_RET
  | VKD3DSIH_ATOMIC_AND
  | VKD3DSIH_ATOMIC_CMP_STORE
  | VKD3DSIH_ATOMIC_IADD
  | VKD3DSIH_ATOMIC_OR
  | VKD3DSIH_ATOMIC_XOR
  | VKD3DSIH_IMM_ATOMIC_ALLOC
  | VKD3DSIH_IMM_ATOMIC_CONSUME
  | VKD3DSIH_IMM_ATOMIC_IADD
  | VKD3DSIH_IMM_ATOMIC_XOR
  | VKD3DSIH_LD_UAV_TYPED
  | VKD3DSIH_LD_RAW
  | VKD3DSIH_LD_STRUCTURED
  | VKD3DSIH_MOV
  | VKD3DSIH_INVALID
deriving DecidableEq

/-- `enum vkd3d_shader_descriptor_type`. -/
inductive VkdDescriptorType
  | VKD3D_SHADER_DESCRIPTOR_TYPE_CBV
  | VKD3D_SHADER_DESCRIPTOR_TYPE_SRV
  | VKD3D_SHADER_DESCRIPTOR_TYPE_UAV
  | VKD3D_SHADER_DESCRIPTOR_TYPE_SAMPLER
deriving DecidableEq

/-- `enum vkd3d_shader_resource_type`; the scanner writes `NONE` and `BUFFER`
itself and passes the declared value through otherwise. -/
inductive VkdResourceType
  | VKD3D_SHADER_RESOURCE_NONE
  | VKD3D_SHADER_RESOURCE_BUFFER
  | VKD3D_SHADER_RESOURCE_TEXTURE_2D
deriving DecidableEq

/-- `enum vkd3d_shader_resource_data_type`. -/
inductive VkdResourceDataType
  | VKD3D_SHADER_RESOURCE_DATA_UNORM
  | VKD3D_SHADER_RESOURCE_DATA_SNORM
  | VKD3D_SHADER_RESOURCE_DATA_INT
  | VKD3D_SHADER_RESOURCE_DATA_UINT
  | VKD3D_SHADER_RESOURCE_DATA_FLOAT
deriving DecidableEq

/-- `enum vkd3d_data_type` as it appears in declaration payloads; `OTHER`
stands for any code outside the five recognized ones (the `default`
branch of main.c:652-655). -/
inductive VkdDataType
  | VKD3D_DATA_UNORM
  | VKD3D_DATA_SNORM
  | VKD3D_DATA_INT
  | VKD3D_DATA_UINT
  | VKD3D_DATA_FLOAT
  | VKD3D_DATA_OTHER
deriving DecidableEq

/-- `struct vkd3d_shader_descriptor_info` (one entry of the caller-visible
descriptor table). -/
structure VkdDescriptorInfo where
  type : VkdDescriptorType
  register_space : Nat
  register_index : Nat
  resource_type : VkdResourceType
  resource_data_type : VkdResourceDataType
  flags : Nat
  count : Nat
deriving DecidableEq

/-- Descriptor flag bits; only their distinctness matters. -/
def VKD3D_SHADER_DESCRIPTOR_INFO_FLAG_UAV_READ : Nat := 1

def VKD3D_SHADER_DESCRIPTOR_INFO_FLAG_UAV_COUNTER : Nat := 2

def VKD3D_SHADER_DESCRIPTOR_INFO_FLAG_SAMPLER_COMPARISON_MODE : Nat := 4

/-- The instruction flag bit tested by the sampler declaration scan. -/
def VKD3DSI_SAMPLER_COMPARISON_MODE : Nat := 1

/-- `struct vkd3d_shader_resource`: the declared register (`reg.reg`) plus
binding space and index. -/
structure VkdResource where
  reg : VkdReg
  register_space : Nat
  register_index : Nat
deriving DecidableEq

/-- `struct vkd3d_shader_constant_buffer` (the fields the scanner reads). -/
structure VkdConstantBuffer where
  register_space : Nat
  register_index : Nat
deriving DecidableEq

/-- `struct vkd3d_shader_sampler` (the fields the scanner reads). -/
structure VkdSampler where
  register_space : Nat
  register_index : Nat
deriving DecidableEq

/-- `struct vkd3d_shader_semantic` (the fields the scanner reads). -/
structure VkdSemantic where
  resource_type : VkdResourceType
  resource_data_type : VkdDataType
  resource : VkdResource
deriving DecidableEq

/-- The declaration union of `struct vkd3d_shader_instruction`, flattened into
a record of all the views the scanner may read (only the view matching
the opcode is ever meaningful). -/
structure VkdDeclaration where
  cb : VkdConstantBuffer
  sampler : VkdSampler
  semantic : VkdSemantic
  raw_resource : VkdResource
  structured_resource : VkdResource
deriving DecidableEq

/-- `struct vkd3d_shader_instruction` restricted to what the scanner reads:
handler, instruction flags, destination/source operand registers and the
declaration payload. -/
structure VkdInstruction where
  handler_idx : VkdOpcode
  flags : Nat
  dst : List VkdReg
  src : List VkdReg
  declaration : VkdDeclaration
deriving DecidableEq

/-- `enum vkd3d_shader_block_type` values of the control-flow frame
(main.c:379-384). -/
inductive VkdBlockType
  | VKD3D_SHADER_BLOCK_IF
  | VKD3D_SHADER_BLOCK_LOOP
  | VKD3D_SHADER_BLOCK_SWITCH
deriving DecidableEq

/-- `struct vkd3d_shader_cf_info` (main.c:377-387). -/
structure VkdCfInfo where
  type : VkdBlockType
  inside_block : Bool
  has_default : Bool
deriving DecidableEq

/-- One UAV range map entry (main.c:391-395). -/
structure VkdUavRange where
  id : Nat
  descriptor_idx : Nat
deriving DecidableEq

/-- `struct vkd3d_shader_scan_context` (main.c:370-398).  `collect` models a
non-NULL `scan_descriptor_info` pointer; `descriptors` is the content of
the caller's descriptor table that the context writes through that
pointer; `cf_info` is the control-flow stack with its head the innermost
(most recently pushed) frame; `allocs` is an oracle of the outcomes of
the future `vkd3d_array_reserve` calls on the three growable tables (an
exhausted oracle means success, covering the amortized no-allocation
case). -/
structure VkdScanContext where
  collect : Bool
  descriptors : List VkdDescriptorInfo
  cf_info : List VkdCfInfo
  uav_ranges : List VkdUavRange
  message_context : VkdMessageContext
  allocs : List Bool
deriving DecidableEq

/-- Consume the next `vkd3d_array_reserve` outcome from the oracle. -/
def takeAlloc (ctx : VkdScanContext) : Bool × VkdScanContext :=
  match ctx.allocs with
  | [] => (true, ctx)
  | b :: rest => (b, {ctx with allocs := rest})

/-! Scan operations (main.c:416-826). -/

/-- `vkd3d result` codes from the public header. -/
def VKD3D_OK : Int := 0

def VKD3D_ERROR : Int := -1

def VKD3D_ERROR_OUT_OF_MEMORY : Int := -2

def VKD3D_ERROR_INVALID_ARGUMENT : Int := -3

def VKD3D_ERROR_INVALID_SHADER : Int := -4

/-- `VKD3D_SHADER_ERROR_TPF_MISMATCHED_CF`; the numeral comes from the private
header and only appears inside formatted diagnostics. -/
def VKD3D_SHADER_ERROR_TPF_MISMATCHED_CF : Nat := 1000

/-- `vkd3d_shader_error` as called by the scanner (main.c:168-176): record a
mismatched-control-flow diagnostic on the scan context's message context;
message-buffer reallocations are modelled as succeeding (they are
independent of the growable-table oracle). -/
def scanCfError (ctx : VkdScanContext) (msg : List Char) : VkdScanContext :=
  {ctx with message_context :=
    vkd3d_shader_verror ctx.message_context VKD3D_SHADER_ERROR_TPF_MISMATCHED_CF msg true}

/-- `vkd3d_shader_scan_get_current_cf_info` (main.c:416-421): the innermost
frame, `none` for NULL when the stack is empty. -/
def vkd3d_shader_scan_get_current_cf_info (ctx : VkdScanContext) : Option VkdCfInfo :=
  ctx.cf_info.head?

/-- `vkd3d_shader_scan_push_cf_info` (main.c:423-438): reserve space (oracle)
and append a zero-initialized frame (enum value 0 is
`VKD3D_SHADER_BLOCK_IF`); `none` models the NULL returned on reserve
failure. -/
def vkd3d_shader_scan_push_cf_info (ctx : VkdScanContext) : Option VkdScanContext :=
  let (ok, ctx1) := takeAlloc ctx
  if ok then
    some {ctx1 with cf_info := ⟨.VKD3D_SHADER_BLOCK_IF, false, false⟩ :: ctx1.cf_info}
  else none

/-- `vkd3d_shader_scan_pop_cf_info` (main.c:440-445). -/
def vkd3d_shader_scan_pop_cf_info (ctx : VkdScanContext) : VkdScanContext :=
  {ctx with cf_info := ctx.cf_info.tail}

/-- Mutation of the innermost frame through the pointer returned by push/get
(a no-op on an empty stack, matching the guarded RET case). -/
def modifyTopCf (ctx : VkdScanContext) (f : VkdCfInfo → VkdCfInfo) : VkdScanContext :=
  {ctx with cf_info :=
    match ctx.cf_info with
    | [] => []
    | c :: rest => f c :: rest}

/-- `vkd3d_shader_scan_find_innermost_breakable_cf_info` (main.c:447-462)
fused with the caller's `cf_info->inside_block = false` (main.c:773):
walk from the innermost frame outwards, clear the open flag of the first
LOOP or SWITCH frame; `none` models the NULL result when no such frame
exists. -/
def clearInnermostBreakable : List VkdCfInfo → Option (List VkdCfInfo)
  | [] => none
  | c :: rest =>
    if c.type = .VKD3D_SHADER_BLOCK_LOOP ∨ c.type = .VKD3D_SHADER_BLOCK_SWITCH then
      some ({c with inside_block := false} :: rest)
    else (clearInnermostBreakable rest).map (c :: ·)

/-- `vkd3d_shader_scan_find_innermost_loop_cf_info` (main.c:464-478) fused
with the CONTINUE caller's `cf_info->inside_block = false` (main.c:790). -/
def clearInnermostLoop : List VkdCfInfo → Option (List VkdCfInfo)
  | [] => none
  | c :: rest =>
    if c.type = .VKD3D_SHADER_BLOCK_LOOP then
      some ({c with inside_block := false} :: rest)
    else (clearInnermostLoop rest).map (c :: ·)

/-- Whether an innermost loop frame exists, for the check-only BREAKP and
CONTINUEP cases (main.c:775-782, 792-799). -/
def hasInnermostLoop (stack : List VkdCfInfo) : Bool :=
  stack.any (fun c => c.type == .VKD3D_SHADER_BLOCK_LOOP)

/-- `vkd3d_shader_scan_get_uav_descriptor_info` (main.c:480-492): first range
entry with the given id, returning its descriptor index (the C function
returns the pointer `&descriptors[descriptor_idx]`); `none` models the
NULL return. -/
def vkd3d_shader_scan_get_uav_descriptor_info (ctx : VkdScanContext) (range_id : Nat) :
    Option Nat :=
  (ctx.uav_ranges.find? (fun r => r.id == range_id)).map (fun r => r.descriptor_idx)

/-- In-place update of one list element (the effect of writing through a
pointer into the descriptor table; out-of-range indices never occur while
the scan's own invariant holds). -/
def modifyAt {α : Type} : List α → Nat → (α → α) → List α
  | [], _, _ => []
  | x :: xs, 0, f => f x :: xs
  | x :: xs, n + 1, f => x :: modifyAt xs n f

/-- OR a flag bit into one descriptor's `flags` field in place (`d->flags |=
bit` through a pointer into the table). -/
def orDescFlag (ds : List VkdDescriptorInfo) (i : Nat) (bit : Nat) : List VkdDescriptorInfo :=
  modifyAt ds i (fun d => {d with flags := d.flags ||| bit})

/-- Membership in the contiguous handler range `VKD3DSIH_ATOMIC_AND ..
VKD3DSIH_ATOMIC_XOR` of the private header's enumeration, as the
enumerated set of its modelled members. -/
def inAtomicRange : VkdOpcode → Bool
  | .VKD3DSIH_ATOMIC_AND | .VKD3DSIH_ATOMIC_CMP_STORE | .VKD3DSIH_ATOMIC_IADD
  | .VKD3DSIH_ATOMIC_OR | .VKD3DSIH_ATOMIC_XOR => true
  | _ => false

/-- Membership in the contiguous handler range `VKD3DSIH_IMM_ATOMIC_ALLOC ..
VKD3DSIH_IMM_ATOMIC_XOR`. -/
def inImmAtomicRange : VkdOpcode → Bool
  | .VKD3DSIH_IMM_ATOMIC_ALLOC | .VKD3DSIH_IMM_ATOMIC_CONSUME | .VKD3DSIH_IMM_ATOMIC_IADD
  | .VKD3DSIH_IMM_ATOMIC_XOR => true
  | _ => false

/-- `vkd3d_shader_instruction_is_uav_read` (main.c:494-502). -/
def vkd3d_shader_instruction_is_uav_read (ins : VkdInstruction) : Bool :=
  inAtomicRange ins.handler_idx || inImmAtomicRange ins.handler_idx
    || ins.handler_idx == .VKD3DSIH_LD_UAV_TYPED
    || (ins.handler_idx == .VKD3DSIH_LD_RAW
        && (ins.src.get? 1).any (fun r => r.rtype == .VKD3DSPR_UAV))
    || (ins.handler_idx == .VKD3DSIH_LD_STRUCTURED
        && (ins.src.get? 2).any (fun r => r.rtype == .VKD3DSPR_UAV))

/-- `vkd3d_shader_scan_record_uav_read` (main.c:504-514): no-op without
descriptor collection; otherwise look the register id up in the range map
and OR `UAV_READ` into the found descriptor's flags.  The C code does not
check the lookup result for NULL before dereferencing it; `none` marks
that undefined behaviour. -/
def vkd3d_shader_scan_record_uav_read (ctx : VkdScanContext) (reg : VkdReg) :
    Option VkdScanContext :=
  if ctx.collect = false then some ctx
  else
    match vkd3d_shader_scan_get_uav_descriptor_info ctx reg.idx0 with
    | none => none
    | some i =>
      some {ctx with descriptors := (orDescFlag ctx.descriptors i
        VKD3D_SHADER_DESCRIPTOR_INFO_FLAG_UAV_READ)}

/-- `vkd3d_shader_instruction_is_uav_counter` (main.c:516-521). -/
def vkd3d_shader_instruction_is_uav_counter (ins : VkdInstruction) : Bool :=
  ins.handler_idx == .VKD3DSIH_IMM_ATOMIC_ALLOC
    || ins.handler_idx == .VKD3DSIH_IMM_ATOMIC_CONSUME

/-- `vkd3d_shader_scan_record_uav_counter` (main.c:523-533); same unchecked
dereference as `vkd3d_shader_scan_record_uav_read`. -/
def vkd3d_shader_scan_record_uav_counter (ctx : VkdScanContext) (reg : VkdReg) :
    Option VkdScanContext :=
  if ctx.collect = false then some ctx
  else
    match vkd3d_shader_scan_get_uav_descriptor_info ctx reg.idx0 with
    | none => none
    | some i =>
      some {ctx with descriptors := (orDescFlag ctx.descriptors i
        VKD3D_SHADER_DESCRIPTOR_INFO_FLAG_UAV_COUNTER)}

/-- `vkd3d_shader_scan_add_descriptor` (main.c:535-561): reserve (oracle),
then append the new entry with `count = 1`; on reserve failure return
false with nothing appended. -/
def vkd3d_shader_scan_add_descriptor (ctx : VkdScanContext) (ty : VkdDescriptorType)
    (register_space register_index : Nat) (resource_type : VkdResourceType)
    (resource_data_type : VkdResourceDataType) (flags : Nat) : Bool × VkdScanContext :=
  let (ok, ctx1) := takeAlloc ctx
  if ok then
    (true, {ctx1 with descriptors := ctx1.descriptors ++
      [⟨ty, register_space, register_index, resource_type, resource_data_type, flags, 1⟩]})
  else (false, ctx1)

/-- `vkd3d_shader_scan_add_uav_range` (main.c:563-578). -/
def vkd3d_shader_scan_add_uav_range (ctx : VkdScanContext) (id descriptor_idx : Nat) :
    Bool × VkdScanContext :=
  let (ok, ctx1) := takeAlloc ctx
  if ok then
    (true, {ctx1 with uav_ranges := ctx1.uav_ranges ++ [⟨id, descriptor_idx⟩]})
  else (false, ctx1)

/-- `vkd3d_shader_scan_constant_buffer_declaration` (main.c:580-590); the
add-descriptor result is discarded, exactly as in the source. -/
def vkd3d_shader_scan_constant_buffer_declaration (ctx : VkdScanContext)
    (ins : VkdInstruction) : VkdScanContext :=
  if ctx.collect = false then ctx
  else
    (vkd3d_shader_scan_add_descriptor ctx .VKD3D_SHADER_DESCRIPTOR_TYPE_CBV
      ins.declaration.cb.register_space ins.declaration.cb.register_index
      .VKD3D_SHADER_RESOURCE_BUFFER .VKD3D_SHADER_RESOURCE_DATA_UINT 0).2

/-- `vkd3d_shader_scan_sampler_declaration` (main.c:592-607). -/
def vkd3d_shader_scan_sampler_declaration (ctx : VkdScanContext) (ins : VkdInstruction) :
    VkdScanContext :=
  if ctx.collect = false then ctx
  else
    (vkd3d_shader_scan_add_descriptor ctx .VKD3D_SHADER_DESCRIPTOR_TYPE_SAMPLER
      ins.declaration.sampler.register_space ins.declaration.sampler.register_index
      .VKD3D_SHADER_RESOURCE_NONE .VKD3D_SHADER_RESOURCE_DATA_UINT
      (if ins.flags &&& VKD3DSI_SAMPLER_COMPARISON_MODE ≠ 0 then
        VKD3D_SHADER_DESCRIPTOR_INFO_FLAG_SAMPLER_COMPARISON_MODE
      else 0)).2

/-- The `unsigned int` modulus for the `descriptor_count - 1` computation. -/
def UINT_MOD : Nat := 2 ^ 32

/-- `vkd3d_shader_scan_resource_declaration` (main.c:609-627): UAV register
file makes a UAV descriptor, anything else an SRV; for a UAV also record
the range map entry at `descriptor_count - 1` (unsigned arithmetic; both
append results are discarded, exactly as in the source). -/
def vkd3d_shader_scan_resource_declaration (ctx : VkdScanContext) (resource : VkdResource)
    (resource_type : VkdResourceType) (resource_data_type : VkdResourceDataType) :
    VkdScanContext :=
  if ctx.collect = false then ctx
  else
    let ty : VkdDescriptorType :=
      if resource.reg.rtype = .VKD3DSPR_UAV then .VKD3D_SHADER_DESCRIPTOR_TYPE_UAV
      else .VKD3D_SHADER_DESCRIPTOR_TYPE_SRV
    let ctx1 := (vkd3d_shader_scan_add_descriptor ctx ty resource.register_space
      resource.register_index resource_type resource_data_type 0).2
    if ty = .VKD3D_SHADER_DESCRIPTOR_TYPE_UAV then
      (vkd3d_shader_scan_add_uav_range ctx1 resource.reg.idx0
        ((ctx1.descriptors.length + (UINT_MOD - 1)) % UINT_MOD)).2
    else ctx1

/-- `vkd3d_shader_scan_typed_resource_declaration` (main.c:629-659): map the
declared data type, degrading unrecognized codes to FLOAT (the internal
error is only logged). -/
def vkd3d_shader_scan_typed_resource_declaration (ctx : VkdScanContext)
    (ins : VkdInstruction) : VkdScanContext :=
  let resource_data_type : VkdResourceDataType :=
    match ins.declaration.semantic.resource_data_type with
    | .VKD3D_DATA_UNORM => .VKD3D_SHADER_RESOURCE_DATA_UNORM
    | .VKD3D_DATA_SNORM => .VKD3D_SHADER_RESOURCE_DATA_SNORM
    | .VKD3D_DATA_INT => .VKD3D_SHADER_RESOURCE_DATA_INT
    | .VKD3D_DATA_UINT => .VKD3D_SHADER_RESOURCE_DATA_UINT
    | .VKD3D_DATA_FLOAT => .VKD3D_SHADER_RESOURCE_DATA_FLOAT
    | .VKD3D_DATA_OTHER => .VKD3D_SHADER_RESOURCE_DATA_FLOAT
  vkd3d_shader_scan_resource_declaration ctx ins.declaration.semantic.resource
    ins.declaration.semantic.resource_type resource_data_type

/-- Error text of the ELSE mismatch (main.c:698). -/
def elseErrMsg : List Char :=
  "Encountered ‘else’ instruction without corresponding ‘if’ block.".toList

/-- Error text of the ENDIF mismatch (main.c:707). -/
def endifErrMsg : List Char :=
  "Encountered ‘endif’ instruction without corresponding ‘if’ block.".toList

/-- Error text of the ENDLOOP mismatch (main.c:720). -/
def endloopErrMsg : List Char :=
  "Encountered ‘endloop’ instruction without corresponding ‘loop’ block.".toList

/-- Error text of the ENDSWITCH mismatch (main.c:734). -/
def endswitchErrMsg : List Char :=
  "Encountered ‘endswitch’ instruction without corresponding ‘switch’ block.".toList

/-- Error text of the CASE mismatch (main.c:744). -/
def caseErrMsg : List Char :=
  "Encountered ‘case’ instruction outside switch block.".toList

/-- Error text of the DEFAULT-outside-switch mismatch (main.c:754). -/
def defaultErrMsg : List Char :=
  "Encountered ‘default’ instruction outside switch block.".toList

/-- Error text of the duplicate-DEFAULT mismatch (main.c:760). -/
def dupDefaultErrMsg : List Char :=
  "Encountered duplicate ‘default’ instruction inside the current switch block.".toList

/-- Error text of the BREAK mismatch (main.c:770). -/
def breakErrMsg : List Char :=
  "Encountered ‘break’ instruction outside breakable block.".toList

/-- Error text of the BREAKP mismatch (main.c:779). -/
def breakpErrMsg : List Char :=
  "Encountered ‘breakp’ instruction outside loop.".toList

/-- Error text of the CONTINUE and CONTINUEP mismatches (main.c:787, 796; the
source uses the same string for both). -/
def continueErrMsg : List Char :=
  "Encountered ‘continue’ instruction outside loop.".toList

/-- The trailing UAV bookkeeping of `vkd3d_shader_scan_instruction`
(main.c:808-825), reached by every case of the opcode switch that does
not return early: record a UAV read for every destination and source
operand in the UAV register file when the opcode is a UAV read, then
record a UAV counter on the first source operand when the opcode is an
interlocked-counter op (`src[0]` is read unconditionally there; an
instruction without sources would be an out-of-bounds read, also mapped
to `none`). -/
def scanInstrTail (ctx : VkdScanContext) (ins : VkdInstruction) :
    Option (Int × VkdScanContext) :=
  (if vkd3d_shader_instruction_is_uav_read ins then
    (ins.dst.foldlM
      (fun c r =>
        if r.rtype = .VKD3DSPR_UAV then vkd3d_shader_scan_record_uav_read c r else some c)
      ctx).bind
      (fun c1 => ins.src.foldlM
        (fun c r =>
          if r.rtype = .VKD3DSPR_UAV then vkd3d_shader_scan_record_uav_read c r else some c)
        c1)
  else some ctx).bind fun c2 =>
    (if vkd3d_shader_instruction_is_uav_counter ins then
      match ins.src.head? with
      | none => none
      | some r => vkd3d_shader_scan_record_uav_counter c2 r
    else some c2).map fun c3 => (VKD3D_OK, c3)

/-- `vkd3d_shader_scan_instruction` (main.c:661-826): the opcode switch —
declaration dispatch, control-flow verification with early
`VKD3D_ERROR_INVALID_SHADER` returns on mismatches — followed by
`scanInstrTail` on every fall-through path.  A `none` result marks C
undefined behaviour: the unchecked NULL frame pointer after a failed
control-flow push (main.c:690-692, 713-714, 726-727) or the unchecked
NULL descriptor lookup in the UAV recording helpers. -/
def vkd3d_shader_scan_instruction (ctx : VkdScanContext) (ins : VkdInstruction) :
    Option (Int × VkdScanContext) :=
  match ins.handler_idx with
  | .VKD3DSIH_DCL_CONSTANT_BUFFER =>
    scanInstrTail (vkd3d_shader_scan_constant_buffer_declaration ctx ins) ins
  | .VKD3DSIH_DCL_SAMPLER =>
    scanInstrTail (vkd3d_shader_scan_sampler_declaration ctx ins) ins
  | .VKD3DSIH_DCL | .VKD3DSIH_DCL_UAV_TYPED =>
    scanInstrTail (vkd3d_shader_scan_typed_resource_declaration ctx ins) ins
  | .VKD3DSIH_DCL_RESOURCE_RAW | .VKD3DSIH_DCL_UAV_RAW =>
    scanInstrTail
      (vkd3d_shader_scan_resource_declaration ctx ins.declaration.raw_resource
        .VKD3D_SHADER_RESOURCE_BUFFER .VKD3D_SHADER_RESOURCE_DATA_UINT) ins
  | .VKD3DSIH_DCL_RESOURCE_STRUCTURED | .VKD3DSIH_DCL_UAV_STRUCTURED =>
    scanInstrTail
      (vkd3d_shader_scan_resource_declaration ctx ins.declaration.structured_resource
        .VKD3D_SHADER_RESOURCE_BUFFER .VKD3D_SHADER_RESOURCE_DATA_UINT) ins
  | .VKD3DSIH_IF =>
    match vkd3d_shader_scan_push_cf_info ctx with
    | none => none
    | some c =>
      scanInstrTail
        (modifyTopCf c (fun f => {f with type := .VKD3D_SHADER_BLOCK_IF, inside_block := true}))
        ins
  | .VKD3DSIH_ELSE =>
    match vkd3d_shader_scan_get_current_cf_info ctx with
    | some f =>
      if f.type = .VKD3D_SHADER_BLOCK_IF then
        scanInstrTail (modifyTopCf ctx (fun g => {g with inside_block := true})) ins
      else some (VKD3D_ERROR_INVALID_SHADER, scanCfError ctx elseErrMsg)
    | none => some (VKD3D_ERROR_INVALID_SHADER, scanCfError ctx elseErrMsg)
  | .VKD3DSIH_ENDIF =>
    match vkd3d_shader_scan_get_current_cf_info ctx with
    | some f =>
      if f.type = .VKD3D_SHADER_BLOCK_IF then
        scanInstrTail (vkd3d_shader_scan_pop_cf_info ctx) ins
      else some (VKD3D_ERROR_INVALID_SHADER, scanCfError ctx endifErrMsg)
    | none => some (VKD3D_ERROR_INVALID_SHADER, scanCfError ctx endifErrMsg)
  | .VKD3DSIH_LOOP =>
    match vkd3d_shader_scan_push_cf_info ctx with
    | none => none
    | some c =>
      scanInstrTail (modifyTopCf c (fun f => {f with type := .VKD3D_SHADER_BLOCK_LOOP})) ins
  | .VKD3DSIH_ENDLOOP =>
    match vkd3d_shader_scan_get_current_cf_info ctx with
    | some f =>
      if f.type = .VKD3D_SHADER_BLOCK_LOOP then
        scanInstrTail (vkd3d_shader_scan_pop_cf_info ctx) ins
      else some (VKD3D_ERROR_INVALID_SHADER, scanCfError ctx endloopErrMsg)
    | none => some (VKD3D_ERROR_INVALID_SHADER, scanCfError ctx endloopErrMsg)
  | .VKD3DSIH_SWITCH =>
    match vkd3d_shader_scan_push_cf_info ctx with
    | none => none
    | some c =>
      scanInstrTail (modifyTopCf c (fun f => {f with type := .VKD3D_SHADER_BLOCK_SWITCH})) ins
  | .VKD3DSIH_ENDSWITCH =>
    match vkd3d_shader_scan_get_current_cf_info ctx with
    | some f =>
      if f.type ≠ .VKD3D_SHADER_BLOCK_SWITCH ∨ f.inside_block = true then
        some (VKD3D_ERROR_INVALID_SHADER, scanCfError ctx endswitchErrMsg)
      else scanInstrTail (vkd3d_shader_scan_pop_cf_info ctx) ins
    | none => some (VKD3D_ERROR_INVALID_SHADER, scanCfError ctx endswitchErrMsg)
  | .VKD3DSIH_CASE =>
    match vkd3d_shader_scan_get_current_cf_info ctx with
    | some f =>
      if f.type = .VKD3D_SHADER_BLOCK_SWITCH then
        scanInstrTail (modifyTopCf ctx (fun g => {g with inside_block := true})) ins
      else some (VKD3D_ERROR_INVALID_SHADER, scanCfError ctx caseErrMsg)
    | none => some (VKD3D_ERROR_INVALID_SHADER, scanCfError ctx caseErrMsg)
  | .VKD3DSIH_DEFAULT =>
    match vkd3d_shader_scan_get_current_cf_info ctx with
    | some f =>
      if f.type = .VKD3D_SHADER_BLOCK_SWITCH then
        if f.has_default then
          some (VKD3D_ERROR_INVALID_SHADER, scanCfError ctx dupDefaultErrMsg)
        else
          scanInstrTail
            (modifyTopCf ctx (fun g => {g with inside_block := true, has_default := true})) ins
      else some (VKD3D_ERROR_INVALID_SHADER, scanCfError ctx defaultErrMsg)
    | none => some (VKD3D_ERROR_INVALID_SHADER, scanCfError ctx defaultErrMsg)
  | .VKD3DSIH_BREAK =>
    match clearInnermostBreakable ctx.cf_info with
    | none => some (VKD3D_ERROR_INVALID_SHADER, scanCfError ctx breakErrMsg)
    | some cf2 => scanInstrTail {ctx with cf_info := cf2} ins
  | .VKD3DSIH_BREAKP =>
    if hasInnermostLoop ctx.cf_info then scanInstrTail ctx ins
    else some (VKD3D_ERROR_INVALID_SHADER, scanCfError ctx breakpErrMsg)
  | .VKD3DSIH_CONTINUE =>
    match clearInnermostLoop ctx.cf_info with
    | none => some (VKD3D_ERROR_INVALID_SHADER, scanCfError ctx continueErrMsg)
    | some cf2 => scanInstrTail {ctx with cf_info := cf2} ins
  | .VKD3DSIH_CONTINUEP =>
    if hasInnermostLoop ctx.cf_info then scanInstrTail ctx ins
    else some (VKD3D_ERROR_INVALID_SHADER, scanCfError ctx continueErrMsg)
  | .VKD3DSIH_RET =>
    scanInstrTail (modifyTopCf ctx (fun f => {f with inside_block := false})) ins
  | _ => scanInstrTail ctx ins

/-! Pass orchestration (main.c:256-368, 828-908). -/

/-- `enum vkd3d_shader_structure_type` tags relevant here. -/
inductive VkdStructureType
  | VKD3D_SHADER_STRUCTURE_TYPE_COMPILE_INFO
  | VKD3D_SHADER_STRUCTURE_TYPE_SCAN_DESCRIPTOR_INFO
  | OTHER_STRUCTURE_TYPE
deriving DecidableEq

/-- `enum vkd3d_shader_source_type`. -/
inductive VkdSourceType
  | VKD3D_SHADER_SOURCE_DXBC_TPF
  | OTHER_SOURCE_TYPE
deriving DecidableEq

/-- `enum vkd3d_shader_target_type`. -/
inductive VkdTargetType
  | VKD3D_SHADER_TARGET_SPIRV_BINARY
  | OTHER_TARGET_TYPE
deriving DecidableEq

/-- Modelled from the spec: the external container parser / instruction
decoder (`shader_extract_from_dxbc` + `shader_sm4_*`, outside this
repository's core per spec section 6) turns the source blob into either a
decoder error code or the decoded instruction stream; a shader blob is
represented by this outcome. -/
inductive VkdParseOutcome
  | error (code : Int)
  | ok (instructions : List VkdInstruction)
deriving DecidableEq

/-- `struct vkd3d_shader_compile_info`: validation tags, log level, source
name, whether the `next` chain carries a
`VKD3D_SHADER_STRUCTURE_TYPE_SCAN_DESCRIPTOR_INFO` request, and the
source blob (as its decode outcome). -/
structure VkdCompileInfo where
  type : VkdStructureType
  source_type : VkdSourceType
  target_type : VkdTargetType
  log_level : Nat
  source_name : Option (List Char)
  has_scan_descriptor_info : Bool
  source : VkdParseOutcome
deriving DecidableEq

/-- `vkd3d_shader_scan_context_init` (main.c:400-407): `memset(context, 0,
sizeof(*context))` discards every field of the caller's uninitialized
local `g`, then the descriptor-info pointer and message context are set.
The oracle of future reserve outcomes is installed here.  The
message-context buffer allocation is modelled as succeeding. -/
def vkd3d_shader_scan_context_init (g : VkdScanContext) (collect : Bool) (log_level : Nat)
    (source_name : Option (List Char)) (allocs : List Bool) : VkdScanContext :=
  let _ := g
  { collect := collect, descriptors := [], cf_info := [], uav_ranges := [],
    message_context := vkd3d_shader_message_context_init log_level source_name,
    allocs := allocs }

/-- `vkd3d_shader_free_scan_descriptor_info` (main.c:910-916) as invoked on
the scan error paths: the descriptor array is freed (the C code leaves
the caller's `descriptor_count` stale and the pointer dangling; the freed
array is modelled as empty). -/
def freeScanDescriptors (ctx : VkdScanContext) : VkdScanContext :=
  {ctx with descriptors := []}

/-- The instruction loop of `vkd3d_shader_scan` (main.c:879-897): stop with
`VKD3D_ERROR_INVALID_SHADER` on an unrecognized instruction, stop on the
first scan error (both free the descriptor info), advance the diagnostic
line cursor after each consumed instruction. -/
def scanLoop (ctx : VkdScanContext) : List VkdInstruction → Option (Int × VkdScanContext)
  | [] => some (VKD3D_OK, ctx)
  | ins :: rest =>
    if ins.handler_idx = .VKD3DSIH_INVALID then
      some (VKD3D_ERROR_INVALID_SHADER, freeScanDescriptors ctx)
    else
      match vkd3d_shader_scan_instruction ctx ins with
      | none => none
      | some (r, ctx1) =>
        if r < 0 then some (r, freeScanDescriptors ctx1)
        else
          scanLoop
            {ctx1 with message_context :=
              {ctx1.message_context with line := ctx1.message_context.line + 1}} rest

/-- The outcome of `vkd3d_shader_scan`: the returned code, the final value of
the caller's `*messages` (`none` when no messages pointer was passed;
`some none` models `*messages == NULL`), and the final content of the
caller's descriptor table (meaningful only when a descriptor-info
structure was chained; left at its initial garbage `gdesc` on the paths
that never touch it). -/
structure VkdScanResult where
  ret : Int
  messages : Option (Option (List Char))
  descriptors : List VkdDescriptorInfo
deriving DecidableEq

/-- `vkd3d_shader_scan` (main.c:828-908).  `g` is the uninitialized local scan
context, `gdesc` the initial garbage in the caller's chained descriptor
table, `messagesPassed` whether `messages` is non-NULL, `allocs` the
growable-table reserve oracle.  Flow: NULL out `*messages`; reject a bad
structure type or source type with `VKD3D_ERROR_INVALID_ARGUMENT`; reset
the chained descriptor table; initialize the context; run the external
decoder (failure propagates its code after draining messages); scan all
instructions; drain messages and hand the descriptor table back.  Message
copy allocations are modelled as succeeding. -/
def vkd3d_shader_scan (g : VkdScanContext) (gdesc : List VkdDescriptorInfo)
    (info : VkdCompileInfo) (messagesPassed : Bool) (allocs : List Bool) :
    Option VkdScanResult :=
  let messages0 : Option (Option (List Char)) := if messagesPassed then some none else none
  if info.type ≠ .VKD3D_SHADER_STRUCTURE_TYPE_COMPILE_INFO then
    some ⟨VKD3D_ERROR_INVALID_ARGUMENT, messages0, gdesc⟩
  else if info.source_type ≠ .VKD3D_SHADER_SOURCE_DXBC_TPF then
    some ⟨VKD3D_ERROR_INVALID_ARGUMENT, messages0, gdesc⟩
  else
    let collect := info.has_scan_descriptor_info
    let ctx0 := vkd3d_shader_scan_context_init g collect info.log_level info.source_name allocs
    match info.source with
    | .error e =>
      some ⟨e,
        if messagesPassed then some (some (copyBuffer ctx0.message_context.messages)) else none,
        if collect then [] else gdesc⟩
    | .ok instrs =>
      let ctx1 := {ctx0 with message_context :=
        {ctx0.message_context with line := 2, column := 1}}
      match scanLoop ctx1 instrs with
      | none => none
      | some (r, ctxF) =>
        some ⟨r,
          if messagesPassed then some (some (copyBuffer ctxF.message_context.messages))
          else none,
          if collect then ctxF.descriptors else gdesc⟩

/-- `vkd3d_shader_validate_compile_info` (main.c:256-283). -/
def vkd3d_shader_validate_compile_info (info : VkdCompileInfo) : Int :=
  if info.type ≠ .VKD3D_SHADER_STRUCTURE_TYPE_COMPILE_INFO then VKD3D_ERROR_INVALID_ARGUMENT
  else if info.source_type ≠ .VKD3D_SHADER_SOURCE_DXBC_TPF then VKD3D_ERROR_INVALID_ARGUMENT
  else if info.target_type ≠ .VKD3D_SHADER_TARGET_SPIRV_BINARY then
    VKD3D_ERROR_INVALID_ARGUMENT
  else VKD3D_OK

/-- Modelled from the spec: the external SPIR-V code-generation backend (spec
section 6) as its observable outcomes — whether construction succeeds,
the per-instruction `handle_instruction` result, and the final `emit`
result. -/
structure VkdSpirvBackend where
  create_ok : Bool
  handle : VkdInstruction → Int
  generate_ret : Int

/-- The instruction loop of `vkd3d_shader_compile` (main.c:340-354): stop with
`VKD3D_ERROR_INVALID_SHADER` on an unrecognized instruction, stop on the
first backend error, advance the diagnostic line cursor after each
consumed instruction (backend-produced diagnostics are external and not
modelled). -/
def compileLoop (backend : VkdSpirvBackend) (mc : VkdMessageContext) :
    List VkdInstruction → Int × VkdMessageContext
  | [] => (VKD3D_OK, mc)
  | ins :: rest =>
    if ins.handler_idx = .VKD3DSIH_INVALID then (VKD3D_ERROR_INVALID_SHADER, mc)
    else
      let r := backend.handle ins
      if r < 0 then (r, mc)
      else compileLoop backend {mc with line := mc.line + 1} rest

/-- The outcome of `vkd3d_shader_compile`: the returned code and the final
value of the caller's `*messages` (the output blob is produced by the
external backend and not modelled). -/
structure VkdCompileResult where
  ret : Int
  messages : Option (Option (List Char))

/-- `vkd3d_shader_compile` (main.c:290-368).  Flow: NULL out `*messages`;
validate the compile info; run `vkd3d_shader_scan` with a descriptor-info
structure chained (discarding its messages and nulling `*messages`
again); re-initialize a fresh message context; re-run the decoder;
construct the backend; stream the instructions; emit; always drain the
second message context into `*messages`.  `g` and `gdesc` are the
uninitialized locals handed to the internal scan; message allocations are
modelled as succeeding; the debug blob dump (main.c:327) writes no
modelled state. -/
def vkd3d_shader_compile (g : VkdScanContext) (gdesc : List VkdDescriptorInfo)
    (info : VkdCompileInfo) (messagesPassed : Bool) (allocs : List Bool)
    (backend : VkdSpirvBackend) : Option VkdCompileResult :=
  let messages0 : Option (Option (List Char)) := if messagesPassed then some none else none
  let v := vkd3d_shader_validate_compile_info info
  if v < 0 then some ⟨v, messages0⟩
  else
    match vkd3d_shader_scan g gdesc {info with has_scan_descriptor_info := true}
        messagesPassed allocs with
    | none => none
    | some scanRes =>
      if scanRes.ret < 0 then some ⟨scanRes.ret, scanRes.messages⟩
      else
        let mc0 := vkd3d_shader_message_context_init info.log_level info.source_name
        match info.source with
        | .error e =>
          some ⟨e, if messagesPassed then some (some (copyBuffer mc0.messages)) else none⟩
        | .ok instrs =>
          if backend.create_ok = false then
            some ⟨VKD3D_ERROR,
              if messagesPassed then some (some (copyBuffer mc0.messages)) else none⟩
          else
            let mc1 := {mc0 with line := 2, column := 1}
            let res := compileLoop backend mc1 instrs
            let rF := if 0 ≤ res.1 then backend.generate_ret else res.1
            some ⟨rF,
              if messagesPassed then some (some (copyBuffer res.2.messages)) else none⟩

theorem validate_invalid (info : VkdCompileInfo)
    (h : info.type ≠ .VKD3D_SHADER_STRUCTURE_TYPE_COMPILE_INFO ∨
      info.source_type ≠ .VKD3D_SHADER_SOURCE_DXBC_TPF ∨
      info.target_type ≠ .VKD3D_SHADER_TARGET_SPIRV_BINARY) :
    vkd3d_shader_validate_compile_info info = VKD3D_ERROR_INVALID_ARGUMENT := by
  by_cases ht : info.type = .VKD3D_SHADER_STRUCTURE_TYPE_COMPILE_INFO
  · by_cases hs : info.source_type = .VKD3D_SHADER_SOURCE_DXBC_TPF
    · have htg : info.target_type ≠ .VKD3D_SHADER_TARGET_SPIRV_BINARY := by tauto
      rw [vkd3d_shader_validate_compile_info, if_neg (by simp [ht]), if_neg (by simp [hs]),
        if_pos htg]
    · rw [vkd3d_shader_validate_compile_info, if_neg (by simp [ht]), if_pos hs]
  · rw [vkd3d_shader_validate_compile_info, if_pos ht]

/-- Claim C10: both `vkd3d_shader_scan` and `vkd3d_shader_compile` set the
caller's messages pointer to NULL on entry whenever it is non-NULL, so on
every failure before a message context is created — an invalid structure
type, an unsupported source format and, for compile, an unsupported
target format — the caller receives a NULL messages pointer (`some none`
when the pointer was passed, `none` when it was not), never an
uninitialized or stale one, together with `VKD3D_ERROR_INVALID_ARGUMENT`. -/
theorem c10_early_null_messages (info : VkdCompileInfo) (mp : Bool) (g : VkdScanContext)
    (gdesc : List VkdDescriptorInfo) (allocs : List Bool) (backend : VkdSpirvBackend) :
    ((info.type ≠ .VKD3D_SHADER_STRUCTURE_TYPE_COMPILE_INFO ∨
        info.source_type ≠ .VKD3D_SHADER_SOURCE_DXBC_TPF) →
      vkd3d_shader_scan g gdesc info mp allocs =
        some ⟨VKD3D_ERROR_INVALID_ARGUMENT, if mp then some none else none, gdesc⟩) ∧
    ((info.type ≠ .VKD3D_SHADER_STRUCTURE_TYPE_COMPILE_INFO ∨
        info.source_type ≠ .VKD3D_SHADER_SOURCE_DXBC_TPF ∨
        info.target_type ≠ .VKD3D_SHADER_TARGET_SPIRV_BINARY) →
      vkd3d_shader_compile g gdesc info mp allocs backend =
        some ⟨VKD3D_ERROR_INVALID_ARGUMENT, if mp then some none else none⟩) := by
  constructor
  · intro h
    rcases h with h | h
    · rw [vkd3d_shader_scan, if_pos h]
    · by_cases ht : info.type = .VKD3D_SHADER_STRUCTURE_TYPE_COMPILE_INFO
      · rw [vkd3d_shader_scan, if_neg (by simp [ht]), if_pos h]
      · rw [vkd3d_shader_scan, if_pos ht]
  · intro h
    have hv := validate_invalid info h
    simp only [vkd3d_shader_compile, hv]
    norm_num [VKD3D_ERROR_INVALID_ARGUMENT]

/-- Witness for C10 at a request with a bad structure type. -/
theorem c10_early_null_messages_witness :
    vkd3d_shader_scan
        ⟨false, [], [], [], ⟨0, [], 0, 0, ⟨[], 0⟩⟩, []⟩ []
        ⟨.OTHER_STRUCTURE_TYPE, .VKD3D_SHADER_SOURCE_DXBC_TPF,
          .VKD3D_SHADER_TARGET_SPIRV_BINARY, 0, none, false, .ok []⟩ true [] =
      some ⟨VKD3D_ERROR_INVALID_ARGUMENT, some none, []⟩ ∧
    vkd3d_shader_compile
        ⟨false, [], [], [], ⟨0, [], 0, 0, ⟨[], 0⟩⟩, []⟩ []
        ⟨.OTHER_STRUCTURE_TYPE, .VKD3D_SHADER_SOURCE_DXBC_TPF,
          .VKD3D_SHADER_TARGET_SPIRV_BINARY, 0, none, false, .ok []⟩ true []
        ⟨true, fun _ => VKD3D_OK, VKD3D_OK⟩ =
      some ⟨VKD3D_ERROR_INVALID_ARGUMENT, some none⟩ :=
  ⟨(c10_early_null_messages
      ⟨.OTHER_STRUCTURE_TYPE, .VKD3D_SHADER_SOURCE_DXBC_TPF,
        .VKD3D_SHADER_TARGET_SPIRV_BINARY, 0, none, false, .ok []⟩ true
      ⟨false, [], [], [], ⟨0, [], 0, 0, ⟨[], 0⟩⟩, []⟩ [] []
      ⟨true, fun _ => VKD3D_OK, VKD3D_OK⟩).1 (Or.inl (by decide)),
    (c10_early_null_messages
      ⟨.OTHER_STRUCTURE_TYPE, .VKD3D_SHADER_SOURCE_DXBC_TPF,
        .VKD3D_SHADER_TARGET_SPIRV_BINARY, 0, none, false, .ok []⟩ true
      ⟨false, [], [], [], ⟨0, [], 0, 0, ⟨[], 0⟩⟩, []⟩ [] []
      ⟨true, fun _ => VKD3D_OK, VKD3D_OK⟩).2 (Or.inl (by decide))⟩

/-- Claim C8: running the Scan Pass twice on the same valid input (same
compile info, messages request and reserve outcomes) yields identical
results — in particular identical descriptor tables: same entries, same
order, same field values — irrespective of the uninitialized local scan
context and the initial garbage in the caller's chained descriptor table,
because `vkd3d_shader_scan_context_init` zeroes the whole context and the
pass resets the chained table before use. -/
theorem c8_scan_deterministic (info : VkdCompileInfo) (mp : Bool) (allocs : List Bool)
    (g1 g2 : VkdScanContext) (gd1 gd2 : List VkdDescriptorInfo)
    (ht : info.type = .VKD3D_SHADER_STRUCTURE_TYPE_COMPILE_INFO)
    (hs : info.source_type = .VKD3D_SHADER_SOURCE_DXBC_TPF)
    (hd : info.has_scan_descriptor_info = true) :
    vkd3d_shader_scan g1 gd1 info mp allocs = vkd3d_shader_scan g2 gd2 info mp allocs := by
  simp only [vkd3d_shader_scan, vkd3d_shader_scan_context_init, ht, hs, hd, ne_eq,
    not_true_eq_false, if_false, ite_true, ite_false]

/-- Witness for C8: two scans of the same two-instruction stream from two
different garbage contexts and garbage descriptor tables agree. -/
theorem c8_scan_deterministic_witness :
    vkd3d_shader_scan
        ⟨true, [⟨.VKD3D_SHADER_DESCRIPTOR_TYPE_SRV, 9, 9, .VKD3D_SHADER_RESOURCE_TEXTURE_2D,
          .VKD3D_SHADER_RESOURCE_DATA_FLOAT, 3, 4⟩],
          [⟨.VKD3D_SHADER_BLOCK_LOOP, true, true⟩], [⟨7, 9⟩],
          ⟨5, "x".toList, 9, 9, ⟨"junk".toList, 2⟩⟩, [false]⟩
        [⟨.VKD3D_SHADER_DESCRIPTOR_TYPE_SRV, 9, 9, .VKD3D_SHADER_RESOURCE_TEXTURE_2D,
          .VKD3D_SHADER_RESOURCE_DATA_FLOAT, 3, 4⟩]
        ⟨.VKD3D_SHADER_STRUCTURE_TYPE_COMPILE_INFO, .VKD3D_SHADER_SOURCE_DXBC_TPF,
          .VKD3D_SHADER_TARGET_SPIRV_BINARY, 0, none, true,
          .ok [⟨.VKD3DSIH_MOV, 0, [⟨.VKD3DSPR_TEMP, 0⟩], [⟨.VKD3DSPR_TEMP, 1⟩],
            ⟨⟨0, 0⟩, ⟨0, 0⟩, ⟨.VKD3D_SHADER_RESOURCE_NONE, .VKD3D_DATA_UINT,
              ⟨⟨.VKD3DSPR_TEMP, 0⟩, 0, 0⟩⟩, ⟨⟨.VKD3DSPR_TEMP, 0⟩, 0, 0⟩,
              ⟨⟨.VKD3DSPR_TEMP, 0⟩, 0, 0⟩⟩⟩,
            ⟨.VKD3DSIH_RET, 0, [], [],
            ⟨⟨0, 0⟩, ⟨0, 0⟩, ⟨.VKD3D_SHADER_RESOURCE_NONE, .VKD3D_DATA_UINT,
              ⟨⟨.VKD3DSPR_TEMP, 0⟩, 0, 0⟩⟩, ⟨⟨.VKD3DSPR_TEMP, 0⟩, 0, 0⟩,
              ⟨⟨.VKD3DSPR_TEMP, 0⟩, 0, 0⟩⟩⟩]⟩
        true [] =
      vkd3d_shader_scan ⟨false, [], [], [], ⟨0, [], 0, 0, ⟨[], 0⟩⟩, []⟩ []
        ⟨.VKD3D_SHADER_STRUCTURE_TYPE_COMPILE_INFO, .VKD3D_SHADER_SOURCE_DXBC_TPF,
          .VKD3D_SHADER_TARGET_SPIRV_BINARY, 0, none, true,
          .ok [⟨.VKD3DSIH_MOV, 0, [⟨.VKD3DSPR_TEMP, 0⟩], [⟨.VKD3DSPR_TEMP, 1⟩],
            ⟨⟨0, 0⟩, ⟨0, 0⟩, ⟨.VKD3D_SHADER_RESOURCE_NONE, .VKD3D_DATA_UINT,
              ⟨⟨.VKD3DSPR_TEMP, 0⟩, 0, 0⟩⟩, ⟨⟨.VKD3DSPR_TEMP, 0⟩, 0, 0⟩,
              ⟨⟨.VKD3DSPR_TEMP, 0⟩, 0, 0⟩⟩⟩,
            ⟨.VKD3DSIH_RET, 0, [], [],
            ⟨⟨0, 0⟩, ⟨0, 0⟩, ⟨.VKD3D_SHADER_RESOURCE_NONE, .VKD3D_DATA_UINT,
              ⟨⟨.VKD3DSPR_TEMP, 0⟩, 0, 0⟩⟩, ⟨⟨.VKD3DSPR_TEMP, 0⟩, 0, 0⟩,
              ⟨⟨.VKD3DSPR_TEMP, 0⟩, 0, 0⟩⟩⟩]⟩
        true [] :=
  c8_scan_deterministic _ true [] _ _ _ _ rfl rfl rfl

theorem scanInstrTail_no_uav (ctx : VkdScanContext) (ins : VkdInstruction)
    (h1 : vkd3d_shader_instruction_is_uav_read ins = false)
    (h2 : vkd3d_shader_instruction_is_uav_counter ins = false) :
    scanInstrTail ctx ins = some (VKD3D_OK, ctx) := by
  simp [scanInstrTail, h1, h2]

theorem is_uav_read_endswitch (ins : VkdInstruction)
    (h : ins.handler_idx = .VKD3DSIH_ENDSWITCH) :
    vkd3d_shader_instruction_is_uav_read ins = false := by
  simp [vkd3d_shader_instruction_is_uav_read, inAtomicRange, inImmAtomicRange, h]

theorem is_uav_counter_endswitch (ins : VkdInstruction)
    (h : ins.handler_idx = .VKD3DSIH_ENDSWITCH) :
    vkd3d_shader_instruction_is_uav_counter ins = false := by
  simp [vkd3d_shader_instruction_is_uav_counter, h]


theorem endswitch_nil (ctx : VkdScanContext) (ins : VkdInstruction)
    (h : ins.handler_idx = .VKD3DSIH_ENDSWITCH) (hcf : ctx.cf_info = []) :
    vkd3d_shader_scan_instruction ctx ins =
      some (VKD3D_ERROR_INVALID_SHADER, scanCfError ctx endswitchErrMsg) := by
  simp [vkd3d_shader_scan_instruction, h, vkd3d_shader_scan_get_current_cf_info, hcf]

theorem endswitch_cons_bad (ctx : VkdScanContext) (ins : VkdInstruction) (f : VkdCfInfo)
    (rest : List VkdCfInfo) (h : ins.handler_idx = .VKD3DSIH_ENDSWITCH)
    (hcf : ctx.cf_info = f :: rest)
    (hc : f.type ≠ .VKD3D_SHADER_BLOCK_SWITCH ∨ f.inside_block = true) :
    vkd3d_shader_scan_instruction ctx ins =
      some (VKD3D_ERROR_INVALID_SHADER, scanCfError ctx endswitchErrMsg) := by
  simp only [vkd3d_shader_scan_instruction, h, vkd3d_shader_scan_get_current_cf_info, hcf,
    List.head?_cons]
  rw [if_pos hc]

theorem endswitch_cons_ok (ctx : VkdScanContext) (ins : VkdInstruction) (f : VkdCfInfo)
    (rest : List VkdCfInfo) (h : ins.handler_idx = .VKD3DSIH_ENDSWITCH)
    (hcf : ctx.cf_info = f :: rest) (htype : f.type = .VKD3D_SHADER_BLOCK_SWITCH)
    (hopen : f.inside_block = false) :
    vkd3d_shader_scan_instruction ctx ins = some (VKD3D_OK, {ctx with cf_info := rest}) := by
  simp only [vkd3d_shader_scan_instruction, h, vkd3d_shader_scan_get_current_cf_info, hcf,
    List.head?_cons]
  rw [if_neg (by simp [htype, hopen])]
  rw [show vkd3d_shader_scan_pop_cf_info ctx = {ctx with cf_info := rest} from by
    simp [vkd3d_shader_scan_pop_cf_info, hcf]]
  exact scanInstrTail_no_uav _ ins (is_uav_read_endswitch ins h) (is_uav_counter_endswitch ins h)

/-- Claim C3: an `endswitch` instruction is rejected with
MismatchedControlFlow (return `VKD3D_ERROR_INVALID_SHADER` with the
`VKD3D_SHADER_ERROR_TPF_MISMATCHED_CF` diagnostic recorded by
`scanCfError`) if and only if the control-flow stack is empty, the top
frame is not a Switch, or the top Switch frame's open flag
(`inside_block`) is still true; otherwise the Switch frame is popped and
the instruction is accepted with `VKD3D_OK`, every other context field
unchanged. -/
theorem c3_endswitch (ctx : VkdScanContext) (ins : VkdInstruction)
    (h : ins.handler_idx = .VKD3DSIH_ENDSWITCH) :
    ((vkd3d_shader_scan_instruction ctx ins =
        some (VKD3D_ERROR_INVALID_SHADER, scanCfError ctx endswitchErrMsg)) ↔
      (ctx.cf_info = [] ∨ ∃ f rest, ctx.cf_info = f :: rest ∧
        (f.type ≠ .VKD3D_SHADER_BLOCK_SWITCH ∨ f.inside_block = true))) ∧
    (∀ f rest, ctx.cf_info = f :: rest → f.type = .VKD3D_SHADER_BLOCK_SWITCH →
      f.inside_block = false →
      vkd3d_shader_scan_instruction ctx ins = some (VKD3D_OK, {ctx with cf_info := rest})) := by
  constructor
  · constructor
    · intro heq
      by_contra hnot
      push_neg at hnot
      obtain ⟨hne, hall⟩ := hnot
      cases hcf2 : ctx.cf_info with
      | nil => exact hne hcf2
      | cons f rest =>
        have hgood := hall f rest hcf2
        push_neg at hgood
        have hopen : f.inside_block = false := by simpa using hgood.2
        have hok := endswitch_cons_ok ctx ins f rest h hcf2 hgood.1 hopen
        rw [hok] at heq
        exact absurd (show VKD3D_OK = VKD3D_ERROR_INVALID_SHADER from
          congrArg Prod.fst (Option.some.inj heq)) (by decide)
    · intro hor
      rcases hor with hnil | ⟨f, rest, hcons, hbad⟩
      · exact endswitch_nil ctx ins h hnil
      · exact endswitch_cons_bad ctx ins f rest h hcons hbad
  · intro f rest hcons htype hopen
    exact endswitch_cons_ok ctx ins f rest h hcons htype hopen

/-- Witness for C3 at a one-frame stack holding a closed Switch frame: the
endswitch is accepted and pops the frame. -/
theorem c3_endswitch_witness :
    vkd3d_shader_scan_instruction
        ⟨true, [], [⟨.VKD3D_SHADER_BLOCK_SWITCH, false, true⟩], [],
          ⟨1, "s".toList, 2, 1, ⟨[NUL], 0⟩⟩, []⟩
        ⟨.VKD3DSIH_ENDSWITCH, 0, [], [],
          ⟨⟨0, 0⟩, ⟨0, 0⟩, ⟨.VKD3D_SHADER_RESOURCE_NONE, .VKD3D_DATA_UINT,
            ⟨⟨.VKD3DSPR_TEMP, 0⟩, 0, 0⟩⟩, ⟨⟨.VKD3DSPR_TEMP, 0⟩, 0, 0⟩,
            ⟨⟨.VKD3DSPR_TEMP, 0⟩, 0, 0⟩⟩⟩ =
      some (VKD3D_OK,
        ⟨true, [], [], [], ⟨1, "s".toList, 2, 1, ⟨[NUL], 0⟩⟩, []⟩) :=
  (c3_endswitch
      ⟨true, [], [⟨.VKD3D_SHADER_BLOCK_SWITCH, false, true⟩], [],
        ⟨1, "s".toList, 2, 1, ⟨[NUL], 0⟩⟩, []⟩
      ⟨.VKD3DSIH_ENDSWITCH, 0, [], [],
        ⟨⟨0, 0⟩, ⟨0, 0⟩, ⟨.VKD3D_SHADER_RESOURCE_NONE, .VKD3D_DATA_UINT,
          ⟨⟨.VKD3DSPR_TEMP, 0⟩, 0, 0⟩⟩, ⟨⟨.VKD3DSPR_TEMP, 0⟩, 0, 0⟩,
          ⟨⟨.VKD3DSPR_TEMP, 0⟩, 0, 0⟩⟩⟩ rfl).2
    ⟨.VKD3D_SHADER_BLOCK_SWITCH, false, true⟩ [] rfl rfl rfl

theorem not_breakable_iff_if (f : VkdCfInfo) :
    ¬(f.type = .VKD3D_SHADER_BLOCK_LOOP ∨ f.type = .VKD3D_SHADER_BLOCK_SWITCH) ↔
      f.type = .VKD3D_SHADER_BLOCK_IF := by
  cases htype : f.type <;> simp

theorem clearInnermostBreakable_eq_none (l : List VkdCfInfo) :
    clearInnermostBreakable l = none ↔ ∀ f ∈ l, f.type = .VKD3D_SHADER_BLOCK_IF := by
  induction l with
  | nil => simp [clearInnermostBreakable]
  | cons c rest ih =>
    by_cases hc : c.type = .VKD3D_SHADER_BLOCK_LOOP ∨ c.type = .VKD3D_SHADER_BLOCK_SWITCH
    · rw [clearInnermostBreakable, if_pos hc]
      constructor
      · intro hsome
        exact absurd hsome (by simp)
      · intro hall
        have hcIf := hall c (List.mem_cons_self c rest)
        rcases hc with h1 | h1 <;> rw [hcIf] at h1 <;> exact absurd h1 (by decide)
    · rw [clearInnermostBreakable, if_neg hc]
      rw [not_breakable_iff_if] at hc
      constructor
      · intro hmap
        have hrest : clearInnermostBreakable rest = none := by
          cases hr : clearInnermostBreakable rest with
          | none => rfl
          | some v =>
            rw [hr] at hmap
            exact absurd hmap (by simp)
        intro f hf
        rcases List.mem_cons.mp hf with hfc | hfr
        · rw [hfc]; exact hc
        · exact (ih.mp hrest) f hfr
      · intro hall
        have hrest : clearInnermostBreakable rest = none :=
          ih.mpr (fun f hf => hall f (List.mem_cons_of_mem c hf))
        rw [hrest]
        rfl

theorem clearInnermostBreakable_split (ifs : List VkdCfInfo) (f : VkdCfInfo)
    (rest : List VkdCfInfo) (hifs : ∀ g ∈ ifs, g.type = .VKD3D_SHADER_BLOCK_IF)
    (hf : f.type = .VKD3D_SHADER_BLOCK_LOOP ∨ f.type = .VKD3D_SHADER_BLOCK_SWITCH) :
    clearInnermostBreakable (ifs ++ f :: rest) =
      some (ifs ++ {f with inside_block := false} :: rest) := by
  induction ifs with
  | nil =>
    simp only [List.nil_append]
    rw [clearInnermostBreakable, if_pos hf]
  | cons c cs ih =>
    have hc : c.type = .VKD3D_SHADER_BLOCK_IF := hifs c (List.mem_cons_self c cs)
    have hnotb : ¬(c.type = .VKD3D_SHADER_BLOCK_LOOP ∨ c.type = .VKD3D_SHADER_BLOCK_SWITCH) :=
      (not_breakable_iff_if c).mpr hc
    simp only [List.cons_append]
    rw [clearInnermostBreakable, if_neg hnotb,
      ih (fun g hg => hifs g (List.mem_cons_of_mem c hg))]
    rfl

theorem is_uav_read_break (ins : VkdInstruction)
    (h : ins.handler_idx = .VKD3DSIH_BREAK) :
    vkd3d_shader_instruction_is_uav_read ins = false := by
  simp [vkd3d_shader_instruction_is_uav_read, inAtomicRange, inImmAtomicRange, h]

theorem is_uav_counter_break (ins : VkdInstruction)
    (h : ins.handler_idx = .VKD3DSIH_BREAK) :
    vkd3d_shader_instruction_is_uav_counter ins = false := by
  simp [vkd3d_shader_instruction_is_uav_counter, h]

/-- Claim C4: a `break` instruction is rejected with MismatchedControlFlow
(`VKD3D_ERROR_INVALID_SHADER` with the mismatched-control-flow diagnostic
recorded) when the control-flow stack is empty or contains only If
frames; when a Loop or Switch frame exists, `break` clears the open flag
(`inside_block`) of exactly the innermost such frame — the first one
found walking outwards from the top of the stack — and leaves every
other frame, and every other field of the cleared frame, unchanged. -/
theorem c4_break (ctx : VkdScanContext) (ins : VkdInstruction)
    (h : ins.handler_idx = .VKD3DSIH_BREAK) :
    ((ctx.cf_info = [] ∨ ∀ f ∈ ctx.cf_info, f.type = .VKD3D_SHADER_BLOCK_IF) →
      vkd3d_shader_scan_instruction ctx ins =
        some (VKD3D_ERROR_INVALID_SHADER, scanCfError ctx breakErrMsg)) ∧
    (∀ ifs f rest, ctx.cf_info = ifs ++ f :: rest →
      (∀ g ∈ ifs, g.type = .VKD3D_SHADER_BLOCK_IF) →
      (f.type = .VKD3D_SHADER_BLOCK_LOOP ∨ f.type = .VKD3D_SHADER_BLOCK_SWITCH) →
      vkd3d_shader_scan_instruction ctx ins =
        some (VKD3D_OK,
          {ctx with cf_info := ifs ++ {f with inside_block := false} :: rest})) := by
  constructor
  · intro hor
    have hall : ∀ f ∈ ctx.cf_info, f.type = .VKD3D_SHADER_BLOCK_IF := by
      rcases hor with hnil | hall
      · rw [hnil]; intro f hf; exact absurd hf (List.not_mem_nil f)
      · exact hall
    have hnone := (clearInnermostBreakable_eq_none ctx.cf_info).mpr hall
    simp [vkd3d_shader_scan_instruction, h, hnone]
  · intro ifs f rest hcons hifs hf
    have hsplit := clearInnermostBreakable_split ifs f rest hifs hf
    have htail := scanInstrTail_no_uav
      {ctx with cf_info := ifs ++ {f with inside_block := false} :: rest} ins
      (is_uav_read_break ins h) (is_uav_counter_break ins h)
    simp only [vkd3d_shader_scan_instruction, h, hcons, hsplit]
    exact htail

/-- Witness for C4: `break` on the stack `[If, Loop, If]` (innermost first)
clears only the open flag of the Loop frame. -/
theorem c4_break_witness :
    vkd3d_shader_scan_instruction
        ⟨true, [], [⟨.VKD3D_SHADER_BLOCK_IF, true, false⟩,
          ⟨.VKD3D_SHADER_BLOCK_LOOP, true, false⟩,
          ⟨.VKD3D_SHADER_BLOCK_IF, true, false⟩], [],
          ⟨1, "s".toList, 2, 1, ⟨[NUL], 0⟩⟩, []⟩
        ⟨.VKD3DSIH_BREAK, 0, [], [],
          ⟨⟨0, 0⟩, ⟨0, 0⟩, ⟨.VKD3D_SHADER_RESOURCE_NONE, .VKD3D_DATA_UINT,
            ⟨⟨.VKD3DSPR_TEMP, 0⟩, 0, 0⟩⟩, ⟨⟨.VKD3DSPR_TEMP, 0⟩, 0, 0⟩,
            ⟨⟨.VKD3DSPR_TEMP, 0⟩, 0, 0⟩⟩⟩ =
      some (VKD3D_OK,
        ⟨true, [], [⟨.VKD3D_SHADER_BLOCK_IF, true, false⟩,
          ⟨.VKD3D_SHADER_BLOCK_LOOP, false, false⟩,
          ⟨.VKD3D_SHADER_BLOCK_IF, true, false⟩], [],
          ⟨1, "s".toList, 2, 1, ⟨[NUL], 0⟩⟩, []⟩) :=
  (c4_break
      ⟨true, [], [⟨.VKD3D_SHADER_BLOCK_IF, true, false⟩,
        ⟨.VKD3D_SHADER_BLOCK_LOOP, true, false⟩,
        ⟨.VKD3D_SHADER_BLOCK_IF, true, false⟩], [],
        ⟨1, "s".toList, 2, 1, ⟨[NUL], 0⟩⟩, []⟩
      ⟨.VKD3DSIH_BREAK, 0, [], [],
        ⟨⟨0, 0⟩, ⟨0, 0⟩, ⟨.VKD3D_SHADER_RESOURCE_NONE, .VKD3D_DATA_UINT,
          ⟨⟨.VKD3DSPR_TEMP, 0⟩, 0, 0⟩⟩, ⟨⟨.VKD3DSPR_TEMP, 0⟩, 0, 0⟩,
          ⟨⟨.VKD3DSPR_TEMP, 0⟩, 0, 0⟩⟩⟩ rfl).2
    [⟨.VKD3D_SHADER_BLOCK_IF, true, false⟩] ⟨.VKD3D_SHADER_BLOCK_LOOP, true, false⟩
    [⟨.VKD3D_SHADER_BLOCK_IF, true, false⟩] rfl (by decide) (Or.inl rfl)

/-- A declaration payload whose fields are never read (non-declaration
instructions still carry the union storage). -/
def emptyDecl : VkdDeclaration :=
  ⟨⟨0, 0⟩, ⟨0, 0⟩,
    ⟨.VKD3D_SHADER_RESOURCE_NONE, .VKD3D_DATA_UINT, ⟨⟨.VKD3DSPR_TEMP, 0⟩, 0, 0⟩⟩,
    ⟨⟨.VKD3DSPR_TEMP, 0⟩, 0, 0⟩, ⟨⟨.VKD3DSPR_TEMP, 0⟩, 0, 0⟩⟩

/-- An arbitrary pre-call (uninitialized) scan context used as the garbage
input of the pass entry points. -/
def g0 : VkdScanContext := ⟨false, [], [], [], ⟨0, [], 0, 0, ⟨[], 0⟩⟩, []⟩

/-- A constant-buffer declaration instruction. -/
def cbvInstr : VkdInstruction :=
  ⟨.VKD3DSIH_DCL_CONSTANT_BUFFER, 0, [], [], {emptyDecl with cb := ⟨0, 0⟩}⟩

/-- A sampler declaration instruction (no comparison mode). -/
def samplerInstr : VkdInstruction :=
  ⟨.VKD3DSIH_DCL_SAMPLER, 0, [], [], {emptyDecl with sampler := ⟨0, 2⟩}⟩

/-- A typed UAV declaration for register id `uid`. -/
def uavDeclInstr (uid : Nat) : VkdInstruction :=
  ⟨.VKD3DSIH_DCL_UAV_TYPED, 0, [], [],
    {emptyDecl with semantic :=
      ⟨.VKD3D_SHADER_RESOURCE_TEXTURE_2D, .VKD3D_DATA_FLOAT, ⟨⟨.VKD3DSPR_UAV, uid⟩, 0, 1⟩⟩}⟩

/-- An interlocked-counter allocate against UAV register id `uid`
(destination is the returned counter value in a temporary). -/
def immAtomicAllocInstr (uid : Nat) : VkdInstruction :=
  ⟨.VKD3DSIH_IMM_ATOMIC_ALLOC, 0, [⟨.VKD3DSPR_TEMP, 0⟩], [⟨.VKD3DSPR_UAV, uid⟩], emptyDecl⟩

/-- A typed UAV load from UAV register id `uid`. -/
def ldUavTypedInstr (uid : Nat) : VkdInstruction :=
  ⟨.VKD3DSIH_LD_UAV_TYPED, 0, [⟨.VKD3DSPR_TEMP, 0⟩],
    [⟨.VKD3DSPR_TEMP, 1⟩, ⟨.VKD3DSPR_UAV, uid⟩], emptyDecl⟩

/-- The scan context of the C9 reachability part: descriptor collection
requested, no UAV declared. -/
def c9ctx : VkdScanContext := ⟨true, [], [], [], ⟨1, "s".toList, 2, 1, ⟨[NUL], 0⟩⟩, []⟩

/-- Claim C9: updating UavRead or UavCounter flags is safe exactly under the
precondition that the operand's register id appears in the UAV range map
— when some entry with the id exists, both recording helpers succeed
(`isSome`) — while for an instruction reading an undeclared UAV register
id (here a typed UAV load from undeclared id 5 with collection on), the
lookup's no-descriptor branch is reached and the unguarded dereference of
the NULL result is undefined behaviour (`none`). -/
theorem c9_uav_record_safety :
    (∀ ctx reg, ctx.collect = true →
      (∃ r, r ∈ ctx.uav_ranges ∧ r.id = reg.idx0) →
      (vkd3d_shader_scan_record_uav_read ctx reg).isSome ∧
      (vkd3d_shader_scan_record_uav_counter ctx reg).isSome) ∧
    vkd3d_shader_scan_instruction c9ctx (ldUavTypedInstr 5) = none := by
  constructor
  · intro ctx reg hc hex
    obtain ⟨r, hmem, hid⟩ := hex
    have hfind : ctx.uav_ranges.find? (fun r2 => r2.id == reg.idx0) ≠ none := by
      intro hnone
      have := List.find?_eq_none.mp hnone r hmem
      simp [hid] at this
    cases hf : ctx.uav_ranges.find? (fun r2 => r2.id == reg.idx0) with
    | none => exact absurd hf hfind
    | some rr =>
      constructor
      · simp [vkd3d_shader_scan_record_uav_read, hc,
          vkd3d_shader_scan_get_uav_descriptor_info, hf]
      · simp [vkd3d_shader_scan_record_uav_counter, hc,
          vkd3d_shader_scan_get_uav_descriptor_info, hf]
  · rfl

/-- Witness for C9: with UAV id 5 present in the range map both recorders
succeed, and the concrete undeclared-id load crashes (`none`). -/
theorem c9_uav_record_safety_witness :
    (vkd3d_shader_scan_record_uav_read
        ⟨true, [⟨.VKD3D_SHADER_DESCRIPTOR_TYPE_UAV, 0, 1, .VKD3D_SHADER_RESOURCE_TEXTURE_2D,
          .VKD3D_SHADER_RESOURCE_DATA_FLOAT, 0, 1⟩], [], [⟨5, 0⟩],
          ⟨1, "s".toList, 2, 1, ⟨[NUL], 0⟩⟩, []⟩ ⟨.VKD3DSPR_UAV, 5⟩).isSome ∧
    vkd3d_shader_scan_instruction c9ctx (ldUavTypedInstr 5) = none :=
  ⟨(c9_uav_record_safety.1
      ⟨true, [⟨.VKD3D_SHADER_DESCRIPTOR_TYPE_UAV, 0, 1, .VKD3D_SHADER_RESOURCE_TEXTURE_2D,
        .VKD3D_SHADER_RESOURCE_DATA_FLOAT, 0, 1⟩], [], [⟨5, 0⟩],
        ⟨1, "s".toList, 2, 1, ⟨[NUL], 0⟩⟩, []⟩ ⟨.VKD3DSPR_UAV, 5⟩ rfl
      ⟨⟨5, 0⟩, List.mem_cons_self _ _, rfl⟩).1,
    c9_uav_record_safety.2⟩

/-- The C1 counterexample input: a valid scan request whose stream declares a
constant buffer and then a sampler, with the first growable-table reserve
call failing. -/
def c1info : VkdCompileInfo :=
  ⟨.VKD3D_SHADER_STRUCTURE_TYPE_COMPILE_INFO, .VKD3D_SHADER_SOURCE_DXBC_TPF,
    .VKD3D_SHADER_TARGET_SPIRV_BINARY, 0, none, true, .ok [cbvInstr, samplerInstr]⟩

/-- Counterexample to C1: with the first descriptor-table append failing its
allocation, the scan pass does not abort with
`VKD3D_ERROR_OUT_OF_MEMORY`; it returns `VKD3D_OK` and keeps processing —
the second instruction's sampler descriptor is recorded (the failed CBV
entry is silently dropped). -/
theorem c1_counterexample :
    (vkd3d_shader_scan g0 [] c1info true [false]).map
        (fun r => (r.ret, r.descriptors.map VkdDescriptorInfo.type)) =
      some (VKD3D_OK, [.VKD3D_SHADER_DESCRIPTOR_TYPE_SAMPLER]) ∧
    VKD3D_OK ≠ VKD3D_ERROR_OUT_OF_MEMORY :=
  ⟨rfl, by decide⟩

theorem is_uav_read_cbv (ins : VkdInstruction)
    (h : ins.handler_idx = .VKD3DSIH_DCL_CONSTANT_BUFFER) :
    vkd3d_shader_instruction_is_uav_read ins = false := by
  simp [vkd3d_shader_instruction_is_uav_read, inAtomicRange, inImmAtomicRange, h]

theorem is_uav_counter_cbv (ins : VkdInstruction)
    (h : ins.handler_idx = .VKD3DSIH_DCL_CONSTANT_BUFFER) :
    vkd3d_shader_instruction_is_uav_counter ins = false := by
  simp [vkd3d_shader_instruction_is_uav_counter, h]

theorem is_uav_read_uav_raw (ins : VkdInstruction)
    (h : ins.handler_idx = .VKD3DSIH_DCL_UAV_RAW) :
    vkd3d_shader_instruction_is_uav_read ins = false := by
  simp [vkd3d_shader_instruction_is_uav_read, inAtomicRange, inImmAtomicRange, h]

theorem is_uav_counter_uav_raw (ins : VkdInstruction)
    (h : ins.handler_idx = .VKD3DSIH_DCL_UAV_RAW) :
    vkd3d_shader_instruction_is_uav_counter ins = false := by
  simp [vkd3d_shader_instruction_is_uav_counter, h]

/-- A raw UAV declaration for register id `uid` (space 0, index 4). -/
def uavRawDeclInstr (uid : Nat) : VkdInstruction :=
  ⟨.VKD3DSIH_DCL_UAV_RAW, 0, [], [],
    {emptyDecl with raw_resource := ⟨⟨.VKD3DSPR_UAV, uid⟩, 0, 4⟩}⟩

/-- Amended C1: on a Growable Table append failure the pass does not abort
with AllocationFailure.  A failed descriptor-table append during a
constant-buffer declaration is logged and skipped — the instruction
completes with `VKD3D_OK` and the descriptor table unchanged; a failed
UAV-range-map append during a raw UAV declaration (descriptor reserve
succeeding, range-map reserve failing) is likewise logged and skipped —
the instruction completes with `VKD3D_OK`, the descriptor recorded and
the range map unchanged; in both cases scanning continues with
subsequent instructions (the scan loop keeps running on every
nonnegative result).  A failed control-flow stack push instead leaves the
callers dereferencing the NULL frame pointer unchecked: undefined
behaviour (`none`), not a clean error return. -/
theorem c1_amended (ctx : VkdScanContext) (ins : VkdInstruction) (rest : List Bool)
    (hc : ctx.collect = true) :
    (ins.handler_idx = .VKD3DSIH_DCL_CONSTANT_BUFFER → ctx.allocs = false :: rest →
      vkd3d_shader_scan_instruction ctx ins = some (VKD3D_OK, {ctx with allocs := rest})) ∧
    (ins.handler_idx = .VKD3DSIH_DCL_UAV_RAW → ctx.allocs = true :: false :: rest →
      ins.declaration.raw_resource.reg.rtype = .VKD3DSPR_UAV →
      vkd3d_shader_scan_instruction ctx ins =
        some (VKD3D_OK, {ctx with
          descriptors := ctx.descriptors ++ [⟨.VKD3D_SHADER_DESCRIPTOR_TYPE_UAV,
            ins.declaration.raw_resource.register_space,
            ins.declaration.raw_resource.register_index,
            .VKD3D_SHADER_RESOURCE_BUFFER, .VKD3D_SHADER_RESOURCE_DATA_UINT, 0, 1⟩],
          allocs := rest})) ∧
    (ins.handler_idx = .VKD3DSIH_IF → ctx.allocs = false :: rest →
      vkd3d_shader_scan_instruction ctx ins = none) := by
  refine ⟨?_, ?_, ?_⟩
  · intro h ha
    have htail := scanInstrTail_no_uav {ctx with allocs := rest} ins
      (is_uav_read_cbv ins h) (is_uav_counter_cbv ins h)
    have hdecl : vkd3d_shader_scan_constant_buffer_declaration ctx ins =
        {ctx with allocs := rest} := by
      simp [vkd3d_shader_scan_constant_buffer_declaration, hc,
        vkd3d_shader_scan_add_descriptor, takeAlloc, ha]
    simp only [vkd3d_shader_scan_instruction, h, hdecl]
    exact htail
  · intro h ha hr
    have htail := scanInstrTail_no_uav
      {ctx with
        descriptors := ctx.descriptors ++ [⟨.VKD3D_SHADER_DESCRIPTOR_TYPE_UAV,
          ins.declaration.raw_resource.register_space,
          ins.declaration.raw_resource.register_index,
          .VKD3D_SHADER_RESOURCE_BUFFER, .VKD3D_SHADER_RESOURCE_DATA_UINT, 0, 1⟩],
        allocs := rest} ins
      (is_uav_read_uav_raw ins h) (is_uav_counter_uav_raw ins h)
    have hdecl : vkd3d_shader_scan_resource_declaration ctx ins.declaration.raw_resource
        .VKD3D_SHADER_RESOURCE_BUFFER .VKD3D_SHADER_RESOURCE_DATA_UINT =
        {ctx with
          descriptors := ctx.descriptors ++ [⟨.VKD3D_SHADER_DESCRIPTOR_TYPE_UAV,
            ins.declaration.raw_resource.register_space,
            ins.declaration.raw_resource.register_index,
            .VKD3D_SHADER_RESOURCE_BUFFER, .VKD3D_SHADER_RESOURCE_DATA_UINT, 0, 1⟩],
          allocs := rest} := by
      simp [vkd3d_shader_scan_resource_declaration, hc, hr,
        vkd3d_shader_scan_add_descriptor, vkd3d_shader_scan_add_uav_range, takeAlloc, ha]
    simp only [vkd3d_shader_scan_instruction, h, hdecl]
    exact htail
  · intro h ha
    simp [vkd3d_shader_scan_instruction, h, vkd3d_shader_scan_push_cf_info, takeAlloc, ha]

/-- Witness for the amended C1 at concrete collecting contexts: a failed
descriptor append (CBV), a failed UAV-range-map append (raw UAV
declaration with the second reserve failing — descriptor recorded, range
map left empty), and a failed control-flow push. -/
theorem c1_amended_witness :
    vkd3d_shader_scan_instruction
        ⟨true, [], [], [], ⟨1, "s".toList, 2, 1, ⟨[NUL], 0⟩⟩, [false]⟩ cbvInstr =
      some (VKD3D_OK, ⟨true, [], [], [], ⟨1, "s".toList, 2, 1, ⟨[NUL], 0⟩⟩, []⟩) ∧
    vkd3d_shader_scan_instruction
        ⟨true, [], [], [], ⟨1, "s".toList, 2, 1, ⟨[NUL], 0⟩⟩, [true, false]⟩
        (uavRawDeclInstr 7) =
      some (VKD3D_OK, ⟨true, [⟨.VKD3D_SHADER_DESCRIPTOR_TYPE_UAV, 0, 4,
        .VKD3D_SHADER_RESOURCE_BUFFER, .VKD3D_SHADER_RESOURCE_DATA_UINT, 0, 1⟩], [], [],
        ⟨1, "s".toList, 2, 1, ⟨[NUL], 0⟩⟩, []⟩) ∧
    vkd3d_shader_scan_instruction
        ⟨true, [], [], [], ⟨1, "s".toList, 2, 1, ⟨[NUL], 0⟩⟩, [false]⟩
        ⟨.VKD3DSIH_IF, 0, [], [], emptyDecl⟩ = none :=
  ⟨(c1_amended ⟨true, [], [], [], ⟨1, "s".toList, 2, 1, ⟨[NUL], 0⟩⟩, [false]⟩ cbvInstr []
      rfl).1 rfl rfl,
    (c1_amended ⟨true, [], [], [], ⟨1, "s".toList, 2, 1, ⟨[NUL], 0⟩⟩, [true, false]⟩
      (uavRawDeclInstr 7) [] rfl).2.1 rfl rfl rfl,
    (c1_amended ⟨true, [], [], [], ⟨1, "s".toList, 2, 1, ⟨[NUL], 0⟩⟩, [false]⟩
      ⟨.VKD3DSIH_IF, 0, [], [], emptyDecl⟩ [] rfl).2.2 rfl rfl⟩

/-- The C2 counterexample input: declare a typed UAV at register id 3, then
issue an interlocked-counter allocate against it; no load instruction
references the UAV. -/
def c2info : VkdCompileInfo :=
  ⟨.VKD3D_SHADER_STRUCTURE_TYPE_COMPILE_INFO, .VKD3D_SHADER_SOURCE_DXBC_TPF,
    .VKD3D_SHADER_TARGET_SPIRV_BINARY, 0, none, true,
    .ok [uavDeclInstr 3, immAtomicAllocInstr 3]⟩

/-- Counterexample to C2: scanning `[DCL_UAV_TYPED id=3, IMM_ATOMIC_ALLOC
src=UAV id 3]` (with no load) leaves the UAV descriptor's flags equal to
`UAV_READ ||| UAV_COUNTER` — the UavRead bit is set, not left unset,
because `IMM_ATOMIC_ALLOC` lies in the immediate-atomic UAV-read opcode
range (main.c:498) and its UAV source operand is therefore recorded as a
read. -/
theorem c2_counterexample :
    (vkd3d_shader_scan g0 [] c2info true []).map
        (fun r => (r.ret, r.descriptors.map VkdDescriptorInfo.flags)) =
      some (VKD3D_OK, [VKD3D_SHADER_DESCRIPTOR_INFO_FLAG_UAV_READ |||
        VKD3D_SHADER_DESCRIPTOR_INFO_FLAG_UAV_COUNTER]) ∧
    (VKD3D_SHADER_DESCRIPTOR_INFO_FLAG_UAV_READ |||
        VKD3D_SHADER_DESCRIPTOR_INFO_FLAG_UAV_COUNTER) &&&
      VKD3D_SHADER_DESCRIPTOR_INFO_FLAG_UAV_READ ≠ 0 :=
  ⟨rfl, by decide⟩

theorem foldlM_read_no_uav (l : List VkdReg) (c : VkdScanContext)
    (h : ∀ r ∈ l, r.rtype ≠ .VKD3DSPR_UAV) :
    (l.foldlM (fun c2 r =>
      if r.rtype = .VKD3DSPR_UAV then vkd3d_shader_scan_record_uav_read c2 r else some c2)
      c) = some c := by
  induction l generalizing c with
  | nil => rfl
  | cons x xs ih =>
    rw [List.foldlM_cons, if_neg (h x (List.mem_cons_self x xs))]
    show (some c).bind _ = some c
    rw [Option.some_bind]
    exact ih c (fun r hr => h r (List.mem_cons_of_mem x hr))

theorem record_uav_read_some (ctx : VkdScanContext) (reg : VkdReg) (i : Nat)
    (hc : ctx.collect = true)
    (hfind : vkd3d_shader_scan_get_uav_descriptor_info ctx reg.idx0 = some i) :
    vkd3d_shader_scan_record_uav_read ctx reg =
      some {ctx with descriptors :=
        (orDescFlag ctx.descriptors i VKD3D_SHADER_DESCRIPTOR_INFO_FLAG_UAV_READ)} := by
  rw [vkd3d_shader_scan_record_uav_read, if_neg (by simp [hc]), hfind]

theorem record_uav_counter_some (ctx : VkdScanContext) (reg : VkdReg) (i : Nat)
    (hc : ctx.collect = true)
    (hfind : vkd3d_shader_scan_get_uav_descriptor_info ctx reg.idx0 = some i) :
    vkd3d_shader_scan_record_uav_counter ctx reg =
      some {ctx with descriptors :=
        (orDescFlag ctx.descriptors i VKD3D_SHADER_DESCRIPTOR_INFO_FLAG_UAV_COUNTER)} := by
  rw [vkd3d_shader_scan_record_uav_counter, if_neg (by simp [hc]), hfind]

theorem foldlM_read_single_uav (c : VkdScanContext) (uid : Nat) :
    (([(⟨.VKD3DSPR_UAV, uid⟩ : VkdReg)]).foldlM (fun c2 r =>
      if r.rtype = .VKD3DSPR_UAV then vkd3d_shader_scan_record_uav_read c2 r else some c2)
      c) = vkd3d_shader_scan_record_uav_read c ⟨.VKD3DSPR_UAV, uid⟩ := by
  rw [List.foldlM_cons, if_pos rfl]
  simp only [List.foldlM_nil]
  exact bind_pure _

/-- Amended C2: an instruction stream that declares a UAV and then issues an
interlocked-counter allocate against its register id — with no load and
no UAV destination operand — sets both the UavCounter flag and the
UavRead flag on that UAV's descriptor: the counter allocate itself is in
the UAV-read opcode class, so its UAV source operand marks the descriptor
as read even without any load instruction. -/
theorem c2_amended (ctx : VkdScanContext) (ins : VkdInstruction) (uid i : Nat)
    (hc : ctx.collect = true)
    (hh : ins.handler_idx = .VKD3DSIH_IMM_ATOMIC_ALLOC)
    (hsrc : ins.src = [⟨.VKD3DSPR_UAV, uid⟩])
    (hdst : ∀ r ∈ ins.dst, r.rtype ≠ .VKD3DSPR_UAV)
    (hfind : vkd3d_shader_scan_get_uav_descriptor_info ctx uid = some i) :
    vkd3d_shader_scan_instruction ctx ins =
      some (VKD3D_OK, {ctx with descriptors :=
        (orDescFlag (orDescFlag ctx.descriptors i VKD3D_SHADER_DESCRIPTOR_INFO_FLAG_UAV_READ) i
          VKD3D_SHADER_DESCRIPTOR_INFO_FLAG_UAV_COUNTER)}) := by
  have hread : vkd3d_shader_instruction_is_uav_read ins = true := by
    simp [vkd3d_shader_instruction_is_uav_read, inImmAtomicRange, hh]
  have hcnt : vkd3d_shader_instruction_is_uav_counter ins = true := by
    simp [vkd3d_shader_instruction_is_uav_counter, hh]
  have hrec1 := record_uav_read_some ctx ⟨.VKD3DSPR_UAV, uid⟩ i hc hfind
  have hrec2 := record_uav_counter_some
    {ctx with descriptors :=
      (orDescFlag ctx.descriptors i VKD3D_SHADER_DESCRIPTOR_INFO_FLAG_UAV_READ)}
    ⟨.VKD3DSPR_UAV, uid⟩ i hc hfind
  simp only [vkd3d_shader_scan_instruction, hh, scanInstrTail, hread, hcnt, ite_true,
    foldlM_read_no_uav ins.dst ctx hdst, Option.some_bind, hsrc, foldlM_read_single_uav,
    hrec1, List.head?_cons, hrec2]
  rfl

/-- Witness for the amended C2 at a one-UAV context: the counter allocate
against declared id 3 sets both flag bits (flags become 3). -/
theorem c2_amended_witness :
    vkd3d_shader_scan_instruction
        ⟨true, [⟨.VKD3D_SHADER_DESCRIPTOR_TYPE_UAV, 0, 1, .VKD3D_SHADER_RESOURCE_TEXTURE_2D,
          .VKD3D_SHADER_RESOURCE_DATA_FLOAT, 0, 1⟩], [], [⟨3, 0⟩],
          ⟨1, "s".toList, 2, 1, ⟨[NUL], 0⟩⟩, []⟩ (immAtomicAllocInstr 3) =
      some (VKD3D_OK,
        ⟨true, [⟨.VKD3D_SHADER_DESCRIPTOR_TYPE_UAV, 0, 1, .VKD3D_SHADER_RESOURCE_TEXTURE_2D,
          .VKD3D_SHADER_RESOURCE_DATA_FLOAT, 3, 1⟩], [], [⟨3, 0⟩],
          ⟨1, "s".toList, 2, 1, ⟨[NUL], 0⟩⟩, []⟩) :=
  c2_amended
    ⟨true, [⟨.VKD3D_SHADER_DESCRIPTOR_TYPE_UAV, 0, 1, .VKD3D_SHADER_RESOURCE_TEXTURE_2D,
      .VKD3D_SHADER_RESOURCE_DATA_FLOAT, 0, 1⟩], [], [⟨3, 0⟩],
      ⟨1, "s".toList, 2, 1, ⟨[NUL], 0⟩⟩, []⟩
    (immAtomicAllocInstr 3) 3 0 rfl rfl rfl (by decide) rfl
